import Mathlib

/-!
Verification of the SlopGate pull-request scoring engine.

The TypeScript sources (src/scoring.ts, src/config.ts, src/checks/content.ts,
src/checks/patterns.ts, the behavioral checks module and the GitHub type
declarations) are embedded shallowly:

* JavaScript numbers that the engine produces and consumes are embedded as `ℚ`
  (every value the engine computes is an exact small rational; `Math.round x`
  is `⌊x + 1/2⌋`, which agrees with JavaScript's half-up rounding).
* JavaScript strings are embedded as `String`, processed via their `List Char`
  data.  String lengths count characters; `.length` of JavaScript counts
  UTF-16 code units, which agrees on the basic plane, and all inputs
  exercised concretely here are ASCII.
* ISO-8601 timestamps (`created_at` fields) are embedded as integer
  milliseconds since the epoch, which is what JavaScript `Date` comparison
  and subtraction coerce them to; the ambient clock `Date.now()` becomes an
  explicit `now : ℤ` parameter.
* The handful of regular expressions in the checks are embedded as
  executable character-list matchers with the same per-line match semantics
  (all the anchored `/m` patterns are matched line by line; in the diff
  strings being scanned every line starts with `+`, so no `\s` run can cross
  a line boundary into a successful match).
* `reason` strings are carried in the data model but abbreviated to fixed
  descriptive text: no claim under verification constrains them, and the
  `summary` presentation string of the aggregator is likewise out of scope.
* The Levenshtein dynamic-programming matrix of the source is embedded by
  its defining recurrence (with an explicit structural fuel so that it
  evaluates in the kernel).
-/

/-! ## Character and string utilities shared by the embedded checks -/

/-- JavaScript `\s` (whitespace) for the character sets exercised by the
engine: space, tab, newline, carriage return, vertical tab, form feed.
(The exotic Unicode space code points also matched by `\s` do not occur in
any input analysed here.) -/
def isJsWs (c : Char) : Bool :=
  c = ' ' || c = '\t' || c = '\n' || c = '\r' || c = Char.ofNat 11 || c = Char.ofNat 12

/-- JavaScript `\w`: ASCII letters, digits and underscore. -/
def isWordChar (c : Char) : Bool :=
  ('a' ≤ c && c ≤ 'z') || ('A' ≤ c && c ≤ 'Z') || ('0' ≤ c && c ≤ '9') || c = '_'

/-- ASCII digit. -/
def isDigitChar (c : Char) : Bool := '0' ≤ c && c ≤ '9'

/-- ASCII lower-casing, the effect of `toLowerCase()` on the inputs here. -/
def lowerChar (c : Char) : Char :=
  if 65 ≤ c.toNat ∧ c.toNat ≤ 90 then Char.ofNat (c.toNat + 32) else c

/-- `toLowerCase()` on a character list. -/
def lowerList (l : List Char) : List Char := l.map lowerChar

/-- `trim()`: drop leading and trailing whitespace. -/
def jsTrimList (l : List Char) : List Char :=
  ((l.dropWhile isJsWs).reverse.dropWhile isJsWs).reverse

/-- `s.trim()` as a `String` operation. -/
def jsTrim (s : String) : String := ⟨jsTrimList s.data⟩

/-- `s.toLowerCase()` as a `String` operation. -/
def jsLower (s : String) : String := ⟨lowerList s.data⟩

/-- `s.toLowerCase().trim()`, the combination used throughout the checks. -/
def lowerTrim (s : String) : String := ⟨jsTrimList (lowerList s.data)⟩

/-- Split a character list at every occurrence of the character `sep`
(JavaScript `split(sep)` semantics: `n` separators yield `n+1` pieces). -/
def splitOnChar (sep : Char) : List Char → List (List Char)
  | [] => [[]]
  | c :: rest =>
    let r := splitOnChar sep rest
    if c = sep then [] :: r
    else match r with
      | [] => [[c]]
      | piece :: pieces => (c :: piece) :: pieces

/-- `patch.split('\n')` as a list of `String` lines. -/
def jsLines (s : String) : List String :=
  (splitOnChar '\n' s.data).map (fun l => ⟨l⟩)

/-- `String.intercalate "\n"` on raw character lists. -/
def joinLines : List (List Char) → List Char
  | [] => []
  | [l] => l
  | l :: rest => l ++ '\n' :: joinLines rest

/-- Does `pre` occur as a prefix of `l`? (decidable helper). -/
def listIsPrefix (pre l : List Char) : Bool := List.isPrefixOf pre l

/-- Does `sub` occur as a substring of `l`? -/
def listContains (l sub : List Char) : Bool :=
  l.tails.any (fun t => listIsPrefix sub t)

/-- `a.includes(b)` on strings. -/
def strContains (s sub : String) : Bool := listContains s.data sub.data

/-- `s.startsWith(p)` on strings. -/
def strStarts (s p : String) : Bool := listIsPrefix p.data s.data

/-- `s.endsWith(p)` on character lists. -/
def listEndsWith (l suf : List Char) : Bool := listIsPrefix suf.reverse l.reverse

/-- The single-quote character (code point 39). -/
def squoteChar : Char := Char.ofNat 39

/-- The backtick character (code point 96). -/
def backtickChar : Char := Char.ofNat 96

/-- JavaScript `Math.round`: round half toward positive infinity. -/
def jsRound (q : ℚ) : ℤ := ⌊q + 1/2⌋

/-! ## Similarity utility (behavioral checks module)

`levenshteinSimilarity` and `jaccardSimilarity` from the behavioral checks
source file. -/

/-- The unit-cost edit-distance recurrence computed by the source's
dynamic-programming matrix, with structural fuel (the fuel is always
sufficient when called through `lev`). -/
def levF : ℕ → List Char → List Char → ℕ
  | 0, _, _ => 0
  | _ + 1, [], ys => ys.length
  | _ + 1, x :: xs, [] => (x :: xs).length
  | f + 1, x :: xs, y :: ys =>
      min (min (levF f xs (y :: ys) + 1) (levF f (x :: xs) ys + 1))
        (levF f xs ys + if x = y then 0 else 1)

/-- Levenshtein distance between two character lists: the value
`matrix[a.length][b.length]` of the source's DP matrix. -/
def lev (xs ys : List Char) : ℕ := levF (xs.length + ys.length) xs ys

/-- JavaScript `split(/\s+/)`: pieces between maximal whitespace runs,
including an empty leading piece when the string starts with whitespace and
an empty trailing piece when it ends with whitespace. -/
def splitWsGo : List Char → List Char → Bool → List String
  | [], acc, _ => [⟨acc.reverse⟩]
  | c :: rest, acc, inWs =>
    if isJsWs c then
      if inWs then splitWsGo rest acc true
      else (⟨acc.reverse⟩ : String) :: splitWsGo rest [] true
    else splitWsGo rest (c :: acc) false

/-- `a.split(/\s+/)` as used by `jaccardSimilarity`. -/
def jsSplitWs (s : String) : List String := splitWsGo s.data [] false

/-- Jaccard similarity for long strings (word-based), from the behavioral
checks source: word sets, `|A∩B| / |A∪B|` with the union computed as
`|A| + |B| - |A∩B|`, and `0` when the union is empty. -/
def jaccardSimilarity (a b : String) : ℚ :=
  let wordsA : Finset String := (jsSplitWs a).toFinset
  let wordsB : Finset String := (jsSplitWs b).toFinset
  let inter : ℕ := (wordsA ∩ wordsB).card
  let union : ℕ := wordsA.card + wordsB.card - inter
  if union = 0 then 0 else (inter : ℚ) / (union : ℚ)

/-- `levenshteinSimilarity` from the behavioral checks source: `1` for
identical strings, `0` when either is empty, the word-based Jaccard
fallback when either is longer than 500 units, and otherwise
`1 - distance / max(len a, len b)`. -/
def levenshteinSimilarity (a b : String) : ℚ :=
  if a = b then 1
  else if a.length = 0 ∨ b.length = 0 then 0
  else if 500 < a.length ∨ 500 < b.length then jaccardSimilarity a b
  else 1 - (lev a.data b.data : ℚ) / (max a.length b.length : ℚ)

/-! ## Data model (src/scoring.ts, src/config.ts, src/github.ts types) -/

/-- A check result: `{ name, score, reason }` (`score` is a number in
JavaScript; every check produces a value in `[0,100]`). -/
structure CheckResult where
  name : String
  score : ℚ
  reason : String
deriving DecidableEq, Repr

/-- The four verdict bands. -/
inductive Verdict where
  | pass
  | warn
  | flag
  | block
deriving DecidableEq, Repr

/-- Score thresholds from the configuration schema. -/
structure Thresholds where
  warn : ℚ
  flag : ℚ
  block : ℚ
deriving DecidableEq, Repr

/-- Per-check weights from the configuration schema. -/
structure Weights where
  velocity : ℚ
  abandonment : ℚ
  shotgun : ℚ
  new_account : ℚ
  placeholder : ℚ
  hallucinated_import : ℚ
  docstring_inflation : ℚ
  copy_paste : ℚ
  generic_description : ℚ
  oversized_diff : ℚ
  unrelated_changes : ℚ
  formatting_only : ℚ
deriving DecidableEq, Repr

/-- The configuration consumed by the scoring engine.  The `auto_close` flag
and allowlist of the full schema are consumed outside the scoring functions
and are not modeled. -/
structure SlopGateConfig where
  thresholds : Thresholds
  weights : Weights
deriving DecidableEq, Repr

/-- `DEFAULT_CONFIG` of src/config.ts: the schema defaults. -/
def DEFAULT_CONFIG : SlopGateConfig :=
  { thresholds := { warn := 30, flag := 60, block := 80 }
    weights :=
      { velocity := 80, abandonment := 60, shotgun := 90, new_account := 20
        placeholder := 70, hallucinated_import := 90, docstring_inflation := 40
        copy_paste := 60, generic_description := 50, oversized_diff := 60
        unrelated_changes := 40, formatting_only := 30 } }

/-- A weighted check: a `CheckResult` extended with its resolved weight and
`weightedScore = score * weight / 100`. -/
structure WeightedCheck where
  check : CheckResult
  weight : ℚ
  weightedScore : ℚ
deriving DecidableEq, Repr

/-- The aggregator's result (the `summary` presentation string is not
modeled; no claim mentions it). -/
structure ScoringResult where
  finalScore : ℤ
  verdict : Verdict
  checks : List CheckResult
  weightedChecks : List WeightedCheck

/-- `CHECK_WEIGHT_MAP` lookup followed by `config.weights[weightKey]`, with
the default weight `50` for an unrecognized check name. -/
def resolveWeight (w : Weights) (name : String) : ℚ :=
  if name = "velocity" then w.velocity
  else if name = "abandonment" then w.abandonment
  else if name = "shotgun" then w.shotgun
  else if name = "new_account" then w.new_account
  else if name = "placeholder" then w.placeholder
  else if name = "hallucinated_import" then w.hallucinated_import
  else if name = "docstring_inflation" then w.docstring_inflation
  else if name = "copy_paste" then w.copy_paste
  else if name = "generic_description" then w.generic_description
  else if name = "oversized_diff" then w.oversized_diff
  else if name = "unrelated_changes" then w.unrelated_changes
  else if name = "formatting_only" then w.formatting_only
  else 50

/-- The aggregation loop of `calculateScore`: total weight, total weighted
score, and the weighted check list in input order, skipping every check
whose resolved weight is `0`. -/
def scorePass (cfg : SlopGateConfig) : List CheckResult → ℚ × ℚ × List WeightedCheck
  | [] => (0, 0, [])
  | c :: rest =>
    let w := resolveWeight cfg.weights c.name
    let r := scorePass cfg rest
    if w = 0 then r
    else (r.1 + w, r.2.1 + c.score * w / 100,
      { check := c, weight := w, weightedScore := c.score * w / 100 } :: r.2.2)

/-- `getVerdict` of src/scoring.ts. -/
def getVerdict (score : ℚ) (config : SlopGateConfig) : Verdict :=
  if config.thresholds.block ≤ score then .block
  else if config.thresholds.flag ≤ score then .flag
  else if config.thresholds.warn ≤ score then .warn
  else .pass

/-- `calculateScore` of src/scoring.ts.  The report sort
(descending by `weightedScore`, stable) is embedded with a stable merge
sort. -/
def calculateScore (checks : List CheckResult) (config : SlopGateConfig) : ScoringResult :=
  let t := scorePass config checks
  let totalWeight := t.1
  let totalWeightedScore := t.2.1
  let finalScore : ℤ :=
    if 0 < totalWeight then jsRound (totalWeightedScore / totalWeight * 100) else 0
  let verdict := getVerdict (finalScore : ℚ) config
  let sorted := t.2.2.mergeSort (fun a b => b.weightedScore ≤ a.weightedScore)
  { finalScore := finalScore, verdict := verdict, checks := checks, weightedChecks := sorted }

/-! ## GitHub data types consumed by the checks (src/github.ts) -/

/-- PR author metadata (`created_at` as epoch milliseconds). -/
structure PRUser where
  login : String
  type : String
  created_at : ℤ
deriving DecidableEq, Repr

/-- A pull-request snapshot. -/
structure PullRequestData where
  number : ℕ
  title : String
  body : String
  user : PRUser
  created_at : ℤ
  changed_files : ℕ
  additions : ℕ
  deletions : ℕ
deriving DecidableEq, Repr

/-- A changed file with its optional unified-diff patch text. -/
structure PRFile where
  filename : String
  status : String
  additions : ℕ
  deletions : ℕ
  changes : ℕ
  patch : Option String
deriving DecidableEq, Repr

/-- A contributor's PR as returned by the search API (`body` may be null,
`created_at` as epoch milliseconds). -/
structure ContributorPR where
  number : ℕ
  title : String
  body : Option String
  state : String
  created_at : ℤ
deriving DecidableEq, Repr

/-- Contributor abandonment statistics `{total, abandoned, rate}`. -/
structure AbandonStats where
  total : ℕ
  abandoned : ℕ
  rate : ℚ
deriving DecidableEq, Repr

/-! ## Behavioral checks -/

/-- Score bands of `velocityCheck` over the 24-hour PR count. -/
def velocityScore (recentCount : ℕ) : ℚ :=
  if recentCount ≤ 3 then 0
  else if recentCount ≤ 5 then 50
  else if recentCount ≤ 10 then 80
  else 100

/-- `velocityCheck`: count of the contributor's PRs created within the
trailing 24 hours of `now` (`Date.now()` of the source). -/
def velocityCheck (now : ℤ) (recentPRs : List ContributorPR) : CheckResult :=
  let twentyFourHoursAgo := now - 24 * 60 * 60 * 1000
  let recentCount := recentPRs.countP (fun pr => decide (twentyFourHoursAgo ≤ pr.created_at))
  { name := "velocity", score := velocityScore recentCount
    reason := "PR velocity in the last 24 hours." }

/-- Score bands of `abandonmentCheck` over the abandonment rate. -/
def abandonmentScore (rate : ℚ) : ℚ :=
  if rate ≤ 30 then 0
  else if rate ≤ 50 then 25
  else if rate ≤ 70 then 50
  else if rate ≤ 90 then 80
  else 100

/-- `abandonmentCheck`: insufficient history below three total PRs,
otherwise banded on the abandonment rate. -/
def abandonmentCheck (stats : AbandonStats) : CheckResult :=
  if stats.total < 3 then
    { name := "abandonment", score := 0, reason := "Insufficient history." }
  else
    { name := "abandonment", score := abandonmentScore stats.rate
      reason := "Abandonment rate of previous PRs." }

/-- `(pr.body || '')` for a nullable body. -/
def orEmpty : Option String → String
  | none => ""
  | some s => s

/-- The comparable PRs of `shotgunCheck`: everything except the current PR
number. -/
def shotgunOthers (currentPR : PullRequestData) (publicPRs : List ContributorPR) :
    List ContributorPR :=
  publicPRs.filter (fun pr => pr.number ≠ currentPR.number)

/-- Title matches counted by the `shotgunCheck` loop: exact equality after
lowercasing and trimming, or similarity above `0.85`. -/
def shotgunTitleMatches (currentPR : PullRequestData) (others : List ContributorPR) : ℕ :=
  let currentTitle := lowerTrim currentPR.title
  others.countP (fun pr =>
    let prTitle := lowerTrim pr.title
    decide (prTitle = currentTitle ∨ 85/100 < levenshteinSimilarity prTitle currentTitle))

/-- Body matches counted by the `shotgunCheck` loop: both bodies longer than
20 characters and similarity above `0.80`. -/
def shotgunBodyMatches (currentPR : PullRequestData) (others : List ContributorPR) : ℕ :=
  let currentBody := lowerTrim currentPR.body
  others.countP (fun pr =>
    let prBody := lowerTrim (orEmpty pr.body)
    decide (20 < currentBody.length ∧ 20 < prBody.length ∧
      80/100 < levenshteinSimilarity prBody currentBody))

/-- Score bands of `shotgunCheck` over the match counts and the title match
rate. -/
def shotgunScore (titleMatches bodyMatches otherCount : ℕ) : ℚ :=
  let titleMatchRate : ℚ := (titleMatches : ℚ) / (otherCount : ℚ)
  if titleMatches = 0 ∧ bodyMatches = 0 then 0
  else if 3 ≤ titleMatches ∨ 2 ≤ bodyMatches then 90
  else if 2 ≤ titleMatches ∨ 1/2 < titleMatchRate then 60
  else 25

/-- `shotgunCheck` from the behavioral checks source. -/
def shotgunCheck (currentPR : PullRequestData) (publicPRs : List ContributorPR) :
    CheckResult :=
  let otherRepoPRs := shotgunOthers currentPR publicPRs
  if otherRepoPRs.isEmpty then
    { name := "shotgun", score := 0, reason := "No other recent public PRs found." }
  else
    { name := "shotgun"
      score := shotgunScore (shotgunTitleMatches currentPR otherRepoPRs)
        (shotgunBodyMatches currentPR otherRepoPRs) otherRepoPRs.length
      reason := "Title and body overlap with the contributor's other PRs." }

/-- Score bands of `newAccountCheck` over account age (days) and
first-PR-to-this-repo status. -/
def newAccountScore (accountAgeDays : ℤ) (isFirstPR : Bool) : ℚ :=
  if 30 ≤ accountAgeDays then 0
  else if ¬ isFirstPR then 10
  else if 14 ≤ accountAgeDays then 30
  else if 7 ≤ accountAgeDays then 50
  else 70

/-- `newAccountCheck`: floor of the account age in days, and whether the
contributor has no other PR to this repository. -/
def newAccountCheck (now : ℤ) (pr : PullRequestData) (recentRepoPRs : List ContributorPR) :
    CheckResult :=
  let accountAgeDays : ℤ := ⌊((now - pr.user.created_at : ℚ)) / (1000 * 60 * 60 * 24)⌋
  let priorPRs := recentRepoPRs.filter (fun rp => rp.number ≠ pr.number)
  let isFirstPR := priorPRs.isEmpty
  { name := "new_account", score := newAccountScore accountAgeDays isFirstPR
    reason := "Account age and first-PR status." }

/-! ## Pattern checks (src/checks/patterns.ts)

The fixed anchored regular expressions of `genericDescriptionCheck` are
embedded as executable patterns built from literals, alternation, option and
whitespace runs — exactly the constructs those regexes use. -/

/-- Pattern syntax sufficient for the title/body regexes of the source. -/
inductive Pat where
  | lit : String → Pat
  | seq : Pat → Pat → Pat
  | alt : Pat → Pat → Pat
  | opt : Pat → Pat
  | wsPlus : Pat
  | wsStar : Pat

/-- Suffixes obtained by consuming one or more leading whitespace
characters. -/
def wsTails : List Char → List (List Char)
  | [] => []
  | c :: rest => if isJsWs c then rest :: wsTails rest else []

/-- All suffixes remaining after the pattern consumes a prefix of the
input. -/
def munch : Pat → List Char → List (List Char)
  | .lit s, l => if listIsPrefix s.data l then [l.drop s.data.length] else []
  | .seq p q, l => (munch p l).flatMap (munch q)
  | .alt p q, l => munch p l ++ munch q l
  | .opt p, l => munch p l ++ [l]
  | .wsPlus, l => wsTails l
  | .wsStar, l => l :: wsTails l

/-- An anchored (`^...$`) regex accepts the whole string. -/
def fullMatch (p : Pat) (s : String) : Bool :=
  (munch p s.data).any List.isEmpty

/-- An unanchored regex `test`: a match starting anywhere. -/
def searchMatch (p : Pat) (s : String) : Bool :=
  s.data.tails.any (fun t => !(munch p t).isEmpty)

/-- Sequence a list of patterns. -/
def pseq : List Pat → Pat
  | [] => .lit ""
  | [p] => p
  | p :: rest => .seq p (pseq rest)

/-- Alternation of a head pattern and further alternatives. -/
def palt (p : Pat) (rest : List Pat) : Pat := rest.foldl .alt p

/-- The ~20 generic-title regexes of `genericDescriptionCheck`, embedded
one-for-one (note `fixes?` parses as the literal `fixe` plus an optional
`s`, faithfully to the regex). -/
def genericTitles : List Pat :=
  [ pseq [.lit "fix", .opt (palt (.lit "ed") [.lit "es", .lit "ing"]), .wsPlus,
      .opt (pseq [.lit "a", .wsPlus]), .lit "bug", .opt (.lit "s")]
  , pseq [.lit "update", .opt (palt (.lit "d") [.lit "s"]), .wsPlus, .lit "code"]
  , pseq [.lit "improve", .opt (palt (.lit "d") [.lit "s"]), .wsPlus,
      .opt (pseq [.lit "the", .wsPlus]), .lit "performance"]
  , pseq [.opt (pseq [.lit "minor", .wsPlus]), .lit "fix", .opt (.lit "es")]
  , pseq [.lit "update", .opt (palt (.lit "d") [.lit "s"])]
  , pseq [.lit "improve", .opt (.lit "ment"), .opt (.lit "s")]
  , pseq [.lit "refactor", .opt (palt (.lit "ed") [.lit "ing"])]
  , pseq [.lit "clean", .wsStar, .lit "up"]
  , pseq [.lit "enhance", .opt (.lit "ment"), .opt (.lit "s")]
  , .lit "optimization"
  , pseq [.lit "bug", .wsStar, .lit "fix"]
  , .lit "patch"
  , .lit "changes"
  , pseq [.lit "update", .opt (.lit "s"),
      .opt (pseq [.wsPlus, .opt (pseq [.lit "to", .wsPlus]),
        .opt (pseq [.lit "the", .wsPlus]), .lit "code"])]
  , pseq [.lit "fix", .opt (.lit "ed"), .wsPlus, .opt (pseq [.lit "some", .wsPlus]),
      palt (pseq [.lit "issue", .opt (.lit "s")])
        [pseq [.lit "problem", .opt (.lit "s")], pseq [.lit "error", .opt (.lit "s")]]]
  , pseq [.lit "code", .wsPlus,
      palt (.lit "improvement") [.lit "cleanup", pseq [.lit "refactor", .opt (.lit "ing")]]]
  , pseq [.lit "improve", .opt (.lit "d"), .wsPlus, .lit "code", .wsPlus, .lit "quality"]
  , pseq [.lit "general", .wsPlus,
      palt (pseq [.lit "improvement", .opt (.lit "s")])
        [.lit "fixes", pseq [.lit "update", .opt (.lit "s")]]]
  , pseq [.lit "misc", .opt (.lit "ellaneous"), .wsPlus,
      palt (.lit "fixes") [.lit "changes", pseq [.lit "update", .opt (.lit "s")]]]
  , pseq [.lit "small", .wsPlus,
      palt (pseq [.lit "fixe", .opt (.lit "s")])
        [pseq [.lit "change", .opt (.lit "s")], pseq [.lit "update", .opt (.lit "s")]]]
  , pseq [.lit "various", .wsPlus,
      palt (pseq [.lit "fixe", .opt (.lit "s")])
        [pseq [.lit "improvement", .opt (.lit "s")], pseq [.lit "update", .opt (.lit "s")]]]
  ]

/-- The templated-AI-phrase regexes tested against the body. -/
def aiDescriptionPatterns : List Pat :=
  [ pseq [.lit "this ", palt (.lit "pr") [.lit "pull request", .lit "commit"], .lit " ",
      palt (.lit "fixes") [.lit "improves", .lit "updates", .lit "enhances", .lit "refactors"]]
  , pseq [palt (.lit "improved") [.lit "enhanced", .lit "optimized"], .lit " ",
      .opt (.lit "the "), palt (.lit "overall") [.lit "code"], .lit " ",
      palt (.lit "quality") [.lit "performance", .lit "readability"]]
  , pseq [.lit "made ", .opt (.lit "the "), palt (.lit "following") [.lit "these", .lit "some"],
      .lit " ", palt (.lit "changes") [.lit "improvements", .lit "updates"]]
  , pseq [.lit "this ", palt (.lit "change") [.lit "update", .lit "improvement"], .lit " ",
      palt (.lit "will") [.lit "should", .lit "aims to"]]
  ]

/-- Decision table of `genericDescriptionCheck`. -/
def genericDescriptionScore (generic short noBody ai : Bool) : ℚ :=
  if generic && noBody then 85
  else if generic && ai then 70
  else if generic then 50
  else if short && noBody then 35
  else if ai && !generic then 20
  else 0

/-- `genericDescriptionCheck` of src/checks/patterns.ts. -/
def genericDescriptionCheck (pr : PullRequestData) : CheckResult :=
  let title := lowerTrim pr.title
  let body := lowerTrim pr.body
  let isGenericTitle := genericTitles.any (fun p => fullMatch p title)
  let isTitleShort := title.length < 15
  let hasNoBody := body.length < 20
  let hasAIDescription := aiDescriptionPatterns.any (fun p => searchMatch p body)
  { name := "generic_description"
    score := genericDescriptionScore isGenericTitle isTitleShort hasNoBody hasAIDescription
    reason := "Generic-title and templated-description heuristics." }

/-- Score bands of `oversizedDiffCheck` over total changed lines and trimmed
description length (`expectedMinDescription = min(totalChanges*0.1, 200)`). -/
def oversizedDiffScore (totalChanges descriptionLength : ℕ) : ℚ :=
  if totalChanges ≤ 100 then 0
  else
    let expectedMinDescription : ℚ := min ((totalChanges : ℚ) * (1/10)) 200
    let isUnderdocumented := (descriptionLength : ℚ) < expectedMinDescription
    if 2000 < totalChanges ∧ descriptionLength < 50 then 95
    else if 1000 < totalChanges ∧ descriptionLength < 50 then 80
    else if 500 < totalChanges ∧ descriptionLength < 50 then 65
    else if 500 < totalChanges ∧ isUnderdocumented then 40
    else if 300 < totalChanges ∧ descriptionLength < 30 then 30
    else 0

/-- `oversizedDiffCheck` of src/checks/patterns.ts. -/
def oversizedDiffCheck (pr : PullRequestData) : CheckResult :=
  { name := "oversized_diff"
    score := oversizedDiffScore (pr.additions + pr.deletions) (jsTrim pr.body).length
    reason := "Diff size versus description length." }

/-- Top-level path segment of a changed file (`"."` for root files). -/
def topDir (filename : String) : String :=
  let parts := splitOnChar '/' filename.data
  if 1 < parts.length then ⟨parts.headD []⟩ else "."

/-- Score bands of `unrelatedChangesCheck` over the top-level directory
count and the related-files signal. -/
def unrelatedScore (dirCount : ℕ) (likelyRelated : Bool) : ℚ :=
  if dirCount ≤ 3 then 0
  else if dirCount ≤ 5 ∧ likelyRelated then 10
  else if dirCount ≤ 5 then 35
  else if dirCount ≤ 8 then 60
  else 85

/-- `unrelatedChangesCheck` of src/checks/patterns.ts (the second-level
directory set of the source is computed only for diagnostics and does not
feed the score). -/
def unrelatedChangesCheck (files : List PRFile) : CheckResult :=
  if files.length ≤ 1 then
    { name := "unrelated_changes", score := 0, reason := "Single file changed." }
  else
    let directories : Finset String := (files.map (fun f => topDir f.filename)).toFinset
    let hasTests := files.any (fun f =>
      strContains f.filename "test" || strContains f.filename "spec")
    let hasConfig := files.any (fun f =>
      strContains f.filename "config" || strContains f.filename "package.json" ||
      strContains f.filename ".yml" || strContains f.filename ".yaml" ||
      strContains f.filename ".toml")
    let hasDocs := files.any (fun f =>
      strContains f.filename "README" || strContains f.filename "doc" ||
      strContains f.filename ".md")
    let likelyRelated := hasTests || hasConfig || hasDocs
    { name := "unrelated_changes"
      score := unrelatedScore directories.card likelyRelated
      reason := "Changed files scattered across directories." }

/-- Remove every whitespace character (`replace(/\s/g, '')`). -/
def stripAllWs (l : List Char) : List Char := l.filter (fun c => !isJsWs c)

/-- Normalize quote characters to `"` (`replace(/["'`]/g, '"')`). -/
def normQuotes (l : List Char) : List Char :=
  l.map (fun c => if c = squoteChar || c = '"' || c = backtickChar then '"' else c)

/-- Remove one trailing `;` or `,` from an already-trimmed line
(`trim().replace(/[;,]\s*$/, '')`). -/
def dropTrailingPunct (l : List Char) : List Char :=
  match l.reverse with
  | c :: rest => if c = ';' || c = ',' then rest.reverse else l
  | [] => l

/-- Diff metadata lines skipped by `formattingOnlyCheck`. -/
def isMetaLine (s : String) : Bool :=
  strStarts s "@@" || strStarts s "diff" || strStarts s "index" ||
  strStarts s "---" || strStarts s "+++"

/-- The four formatting-only tests on a removed/added line pair (the leading
`-`/`+` already stripped). -/
def isFormattingPair (removed added : List Char) : Bool :=
  jsTrimList removed == jsTrimList added ||
  stripAllWs removed == stripAllWs added ||
  normQuotes removed == normQuotes added ||
  dropTrailingPunct (jsTrimList removed) == dropTrailingPunct (jsTrimList added)

/-- Classification of a single-sided added/removed line. -/
def fmtSingle (l : String) (r : ℕ × ℕ) : ℕ × ℕ :=
  if strStarts l "+" || strStarts l "-" then
    let content := jsTrimList l.data.tail
    if content = [] ∨ content = ['{'] ∨ content = ['}'] then (r.1 + 1, r.2)
    else (r.1, r.2 + 1)
  else r

/-- The line walk of `formattingOnlyCheck`: (formatting-only, substantive)
line tallies. -/
def fmtGo : List String → ℕ × ℕ
  | [] => (0, 0)
  | [l] => if isMetaLine l then (0, 0) else fmtSingle l (0, 0)
  | l :: next :: rest2 =>
    if isMetaLine l then fmtGo (next :: rest2)
    else if strStarts l "-" && strStarts next "+" then
      let r := fmtGo rest2
      if isFormattingPair l.data.tail next.data.tail then (r.1 + 2, r.2)
      else (r.1, r.2 + 2)
    else fmtSingle l (fmtGo (next :: rest2))

/-- The title keyword test of `formattingOnlyCheck`. -/
def claimsSubstantiveWork (title : String) : Bool :=
  [("fix" : String), "feat", "add", "implement", "resolve", "bug", "issue",
    "feature", "enhance", "refactor", "optimize"].any
    (fun w => strContains (jsLower title) w)

/-- Score bands of `formattingOnlyCheck` over the line tallies and the
title-claim flag (score 0 below five classified lines). -/
def formattingScore (formattingOnlyLines substantiveLines : ℕ) (claimsWork : Bool) : ℚ :=
  let totalChangedLines := formattingOnlyLines + substantiveLines
  if totalChangedLines < 5 then 0
  else
    let formattingRate : ℚ := (formattingOnlyLines : ℚ) / (totalChangedLines : ℚ)
    if formattingRate < 1/2 then 0
    else if formattingRate < 8/10 then (if claimsWork then 30 else 10)
    else if formattingRate < 95/100 then (if claimsWork then 65 else 25)
    else (if claimsWork then 90 else 35)

/-- `formattingOnlyCheck` of src/checks/patterns.ts. -/
def formattingOnlyCheck (pr : PullRequestData) (files : List PRFile) : CheckResult :=
  let counts := files.foldl (fun acc f =>
    match f.patch with
    | none => acc
    | some p =>
      if p = "" then acc
      else
        let r := fmtGo (jsLines p)
        (acc.1 + r.1, acc.2 + r.2)) ((0, 0) : ℕ × ℕ)
  { name := "formatting_only"
    score := formattingScore counts.1 counts.2 (claimsSubstantiveWork pr.title)
    reason := "Share of whitespace-only changes versus the title's claims." }

/-! ## Content checks (src/checks/content.ts)

All scanners below are embedded as structurally recursive character-list
functions (fuel arguments, where present, are always supplied with the
input length, which every scanner consumes at least one character per step
of). -/

/-- The added lines of a unified diff: lines beginning with `+` but not
`+++`. -/
def addedLines (patch : String) : List String :=
  (jsLines patch).filter (fun l => strStarts l "+" && !strStarts l "+++")

/-- Consume the maximal leading whitespace run: its length and the rest. -/
def wsRun : List Char → ℕ × List Char
  | [] => (0, [])
  | c :: rest =>
    if isJsWs c then
      let r := wsRun rest
      (r.1 + 1, r.2)
    else (0, c :: rest)

/-- Consume a literal, returning the rest on success. -/
def expectLit (lit : List Char) (l : List Char) : Option (List Char) :=
  if listIsPrefix lit l then some (l.drop lit.length) else none

/-- First alternative of the `emptyFunction` pattern: `{\s*}`. -/
def matchEmptyBraces : List Char → Option ℕ
  | '{' :: rest =>
    let r := wsRun rest
    match r.2 with
    | '}' :: _ => some (2 + r.1)
    | _ => none
  | _ => none

/-- Second alternative: `{\s*\/\/\s*}`. -/
def matchEmptyBracesLine : List Char → Option ℕ
  | '{' :: rest =>
    let r1 := wsRun rest
    match r1.2 with
    | '/' :: '/' :: rest2 =>
      let r2 := wsRun rest2
      match r2.2 with
      | '}' :: _ => some (4 + r1.1 + r2.1)
      | _ => none
    | _ => none
  | _ => none

/-- Third alternative: `{\s*\/\*\s*\*\/\s*}`. -/
def matchEmptyBracesBlock : List Char → Option ℕ
  | '{' :: rest =>
    let r1 := wsRun rest
    match r1.2 with
    | '/' :: '*' :: rest2 =>
      let r2 := wsRun rest2
      match r2.2 with
      | '*' :: '/' :: rest3 =>
        let r3 := wsRun rest3
        match r3.2 with
        | '}' :: _ => some (6 + r1.1 + r2.1 + r3.1)
        | _ => none
      | _ => none
    | _ => none
  | _ => none

/-- The `emptyFunction` pattern of `placeholderCheck`: the three
alternatives in regex order, returning the consumed length. -/
def matchEmptyFunction (l : List Char) : Option ℕ :=
  match matchEmptyBraces l with
  | some n => some n
  | none =>
    match matchEmptyBracesLine l with
    | some n => some n
    | none => matchEmptyBracesBlock l

/-- Count the non-overlapping matches of a scanner over an input, resuming
after each match (fuel-driven; one character is consumed per step). -/
def countScanF (matchAt : List Char → Option ℕ) : ℕ → List Char → ℕ
  | 0, _ => 0
  | _, [] => 0
  | f + 1, c :: rest =>
    match matchAt (c :: rest) with
    | some n => 1 + countScanF matchAt f (rest.drop (n - 1))
    | none => countScanF matchAt f rest

/-- Global match count of a pattern over a character list. -/
def countScan (matchAt : List Char → Option ℕ) (l : List Char) : ℕ :=
  countScanF matchAt l.length l

/-- Is the head character whitespace? -/
def headIsWs : List Char → Bool
  | c :: _ => isJsWs c
  | [] => false

/-- Per-line test of `todoWithoutContext` (`\/\/\s*TODO\s*$` with the `m`
flag): a `//` followed by optional whitespace, `TODO`, and only whitespace
to the end of the line. -/
def isTodoNoContextLine (l : List Char) : Bool :=
  l.tails.any (fun t =>
    match t with
    | '/' :: '/' :: rest =>
      let r := wsRun rest
      match r.2 with
      | 'T' :: 'O' :: 'D' :: 'O' :: rest2 => rest2.all isJsWs
      | _ => false
    | _ => false)

/-- Per-line test of `passStatement` (`^\+\s*pass\s*$` with the `m`
flag). -/
def isPassLine (l : List Char) : Bool :=
  match l with
  | '+' :: rest =>
    let r := wsRun rest
    match r.2 with
    | 'p' :: 'a' :: 's' :: 's' :: rest2 => rest2.all isJsWs
    | _ => false
  | _ => false

/-- Maximal word-character runs of a character list (the only substrings on
which a `\b...\b`-delimited token can match). -/
def wordRunsGo : List Char → List Char → List (List Char)
  | [], acc => if acc.isEmpty then [] else [acc.reverse]
  | c :: rest, acc =>
    if isWordChar c then wordRunsGo rest (c :: acc)
    else if acc.isEmpty then wordRunsGo rest []
    else acc.reverse :: wordRunsGo rest []

/-- All maximal word runs. -/
def wordRuns (l : List Char) : List (List Char) := wordRunsGo l []

/-- Does a word run match one of the `placeholderNames` tokens
(case-insensitively, whole-run because of the word boundaries)? -/
def isPlaceholderWord (w : List Char) : Bool :=
  let lw := lowerList w
  lw = "foo".data || lw = "bar".data || lw = "baz".data ||
  (listIsPrefix "temp".data lw && (lw.drop 4).all isDigitChar) ||
  (listIsPrefix "test".data lw && 4 < lw.length && (lw.drop 4).all isDigitChar) ||
  lw = "xxx".data || lw = "yyy".data || lw = "zzz".data ||
  lw = "placeholder".data || lw = "dummy".data || lw = "sample".data ||
  (listIsPrefix "example".data lw && 7 < lw.length && (lw.drop 7).all isDigitChar)

/-- The `notImplemented` pattern (case-insensitive; matched against the
lowercased text): `throw\s+new\s+(error|notimplementederror)\s*\(\s*` then a
quote and one of `not\s+implemented`, `todo`, `fixme`.  Returns the
consumed length. -/
def matchNotImpl (l : List Char) : Option ℕ :=
  match expectLit "throw".data l with
  | none => none
  | some r1 =>
    let w1 := wsRun r1
    if w1.1 = 0 then none
    else
      match expectLit "new".data w1.2 with
      | none => none
      | some r2 =>
        let w2 := wsRun r2
        if w2.1 = 0 then none
        else
          let afterCls :=
            match expectLit "error".data w2.2 with
            | some r3 => some r3
            | none => expectLit "notimplementederror".data w2.2
          match afterCls with
          | none => none
          | some r3 =>
            let w3 := wsRun r3
            match w3.2 with
            | '(' :: r4 =>
              let w4 := wsRun r4
              match w4.2 with
              | q :: r5 =>
                if q = '"' || q = squoteChar || q = backtickChar then
                  let afterKw :=
                    match expectLit "not".data r5 with
                    | some r6 =>
                      let w5 := wsRun r6
                      if w5.1 = 0 then none else expectLit "implemented".data w5.2
                    | none =>
                      match expectLit "todo".data r5 with
                      | some r6 => some r6
                      | none => expectLit "fixme".data r5
                  match afterKw with
                  | none => none
                  | some rEnd => some (l.length - rEnd.length)
                else none
              | [] => none
            | _ => none

/-- Per-file placeholder issue count: empty-brace bodies, contextless
TODOs, bare `pass` lines, placeholder identifiers (only when more than two
occur), and not-implemented stubs. -/
def placeholderFileIssues (patch : String) : ℕ :=
  let added := addedLines patch
  let content := joinLines (added.map String.data)
  let emptyFunctions := countScan matchEmptyFunction content
  let todos := added.countP (fun l => isTodoNoContextLine l.data)
  let passStmts := added.countP (fun l => isPassLine l.data)
  let placeholders := (wordRuns content).countP isPlaceholderWord
  let notImpl := countScan matchNotImpl (lowerList content)
  emptyFunctions + todos + passStmts + (if 2 < placeholders then placeholders else 0) + notImpl

/-- Issue and added-line totals of `placeholderCheck` over all files. -/
def placeholderStats (files : List PRFile) : ℕ × ℕ :=
  files.foldl (fun acc f =>
    match f.patch with
    | none => acc
    | some p =>
      if p = "" then acc
      else (acc.1 + placeholderFileIssues p, acc.2 + (addedLines p).length)) (0, 0)

/-- Score bands of `placeholderCheck` over the issue rate. -/
def placeholderScore (totalIssueCount totalLinesChanged : ℕ) : ℚ :=
  let issueRate : ℚ := (totalIssueCount : ℚ) / ((max totalLinesChanged 1 : ℕ) : ℚ)
  if totalIssueCount = 0 then 0
  else if issueRate < 2/100 then 15
  else if issueRate < 5/100 then 40
  else if issueRate < 1/10 then 70
  else 95

/-- `placeholderCheck` of src/checks/content.ts. -/
def placeholderCheck (files : List PRFile) : CheckResult :=
  let s := placeholderStats files
  if s.2 = 0 then
    { name := "placeholder", score := 0, reason := "No code changes to analyze." }
  else
    { name := "placeholder", score := placeholderScore s.1 s.2
      reason := "Placeholder and stub code in added lines." }

/-- `^\+\s*$`: an added line with only whitespace. -/
def isEmptyAddedLine (l : List Char) : Bool :=
  match l with
  | '+' :: rest => rest.all isJsWs
  | _ => false

/-- `^\+\s*(\/\/|#|--|;)\s`: single-line comment marker followed by one
whitespace character. -/
def isSingleLineComment (l : List Char) : Bool :=
  match l with
  | '+' :: rest =>
    let t := (wsRun rest).2
    (listIsPrefix "//".data t && headIsWs (t.drop 2)) ||
    (listIsPrefix "#".data t && headIsWs (t.drop 1)) ||
    (listIsPrefix "--".data t && headIsWs (t.drop 2)) ||
    (listIsPrefix ";".data t && headIsWs (t.drop 1))
  | _ => false

/-- `^\+\s*(\/\*|\*|"""|'''|<!--)`: block-comment opener. -/
def isBlockCommentStart (l : List Char) : Bool :=
  match l with
  | '+' :: rest =>
    let t := (wsRun rest).2
    listIsPrefix "/*".data t || listIsPrefix "*".data t ||
    listIsPrefix ['"', '"', '"'] t ||
    listIsPrefix [squoteChar, squoteChar, squoteChar] t ||
    listIsPrefix "<!--".data t
  | _ => false

/-- `(\*\/|"""|'''|-->)\s*$`: block-comment closer at the end of the
line. -/
def isBlockCommentEnd (l : List Char) : Bool :=
  let r := (l.reverse.dropWhile isJsWs).reverse
  listEndsWith r "*/".data || listEndsWith r ['"', '"', '"'] ||
  listEndsWith r [squoteChar, squoteChar, squoteChar] ||
  listEndsWith r "-->".data

/-- `^\+\s*\*\s`: doc-comment continuation line. -/
def isDocstringLine (l : List Char) : Bool :=
  match l with
  | '+' :: rest =>
    let t := (wsRun rest).2
    listIsPrefix "*".data t && headIsWs (t.drop 1)
  | _ => false

/-- (comment, code) line tallies of `docstringInflationCheck`. -/
def docstringStats (files : List PRFile) : ℕ × ℕ :=
  files.foldl (fun acc f =>
    match f.patch with
    | none => acc
    | some p =>
      if p = "" then acc
      else
        (addedLines p).foldl (fun acc2 line =>
          let l := line.data
          if isEmptyAddedLine l then acc2
          else if isSingleLineComment l || isBlockCommentStart l ||
              isBlockCommentEnd l || isDocstringLine l then
            (acc2.1 + 1, acc2.2)
          else (acc2.1, acc2.2 + 1)) acc) (0, 0)

/-- Score bands of `docstringInflationCheck` over the comment share. -/
def docstringScore (totalCommentLines totalCodeLines : ℕ) : ℚ :=
  let totalLines := totalCommentLines + totalCodeLines
  if totalLines < 10 then 0
  else
    let commentShare : ℚ := (totalCommentLines : ℚ) / (totalLines : ℚ)
    if commentShare ≤ 3/10 then 0
    else if commentShare ≤ 45/100 then 15
    else if commentShare ≤ 6/10 then 45
    else if commentShare ≤ 75/100 then 75
    else 95

/-- `docstringInflationCheck` of src/checks/content.ts. -/
def docstringInflationCheck (files : List PRFile) : CheckResult :=
  let s := docstringStats files
  { name := "docstring_inflation", score := docstringScore s.1 s.2
    reason := "Share of comment lines among added lines." }

/-- Remove `\/\/.*$` per line: cut a line at its first `//`. -/
def cutLineComment : List Char → List Char
  | [] => []
  | '/' :: '/' :: _ => []
  | c :: rest => c :: cutLineComment rest

/-- Remove `#.*$` per line: cut a line at its first `#`. -/
def cutHashComment : List Char → List Char
  | [] => []
  | '#' :: _ => []
  | c :: rest => c :: cutHashComment rest

/-- `replace(/\/\/.*$/gm, '')`. -/
def removeLineComments (l : List Char) : List Char :=
  joinLines ((splitOnChar '\n' l).map cutLineComment)

/-- `replace(/#.*$/gm, '')`. -/
def removeHashComments (l : List Char) : List Char :=
  joinLines ((splitOnChar '\n' l).map cutHashComment)

/-- Skip to just past the next `*\/` (the non-greedy close of a block
comment). -/
def dropToBlockEnd : ℕ → List Char → Option (List Char)
  | 0, _ => none
  | _, [] => none
  | _ + 1, '*' :: '/' :: rest => some rest
  | f + 1, _ :: rest => dropToBlockEnd f rest

/-- `replace(/\/\*[\s\S]*?\*\//g, '')` with fuel. -/
def removeBlockF : ℕ → List Char → List Char
  | 0, l => l
  | _ + 1, [] => []
  | f + 1, '/' :: '*' :: rest =>
    (match dropToBlockEnd rest.length rest with
     | some rest2 => removeBlockF f rest2
     | none => '/' :: removeBlockF f ('*' :: rest))
  | f + 1, c :: rest => c :: removeBlockF f rest

/-- Remove every (closed) block comment. -/
def removeBlockComments (l : List Char) : List Char := removeBlockF l.length l

/-- Collapse whitespace runs to single spaces (`replace(/\s+/g, ' ')`). -/
def collapseGo : List Char → Bool → List Char
  | [], _ => []
  | c :: rest, inWs =>
    if isJsWs c then
      if inWs then collapseGo rest true else ' ' :: collapseGo rest true
    else c :: collapseGo rest false

/-- `normalizeCode` of src/checks/content.ts: strip line, block and hash
comments, collapse whitespace, trim. -/
def normalizeCode (code : String) : String :=
  ⟨jsTrimList (collapseGo
    (removeHashComments (removeBlockComments (removeLineComments code.data))) false)⟩

/-- A contiguous block of non-blank added lines. -/
structure CodeBlock where
  file : String
  block : String
  lineCount : ℕ
deriving DecidableEq, Repr

/-- The block-collection walk of `copyPasteCheck`: groups consecutive
non-blank added lines (trimmed, `+` stripped), keeping blocks of at least
four lines; blank added lines neither extend nor break a block. -/
def collectBlocksGo (filename : String) : List (List Char) → List (List Char) → List CodeBlock
  | [], cur =>
    if 4 ≤ cur.length then [⟨filename, ⟨joinLines cur⟩, cur.length⟩] else []
  | l :: rest, cur =>
    if listIsPrefix ['+'] l && !listIsPrefix "+++".data l then
      let clean := jsTrimList l.tail
      if 0 < clean.length then collectBlocksGo filename rest (cur ++ [clean])
      else collectBlocksGo filename rest cur
    else
      (if 4 ≤ cur.length then [⟨filename, ⟨joinLines cur⟩, cur.length⟩] else []) ++
        collectBlocksGo filename rest []

/-- Code blocks of one file (skipping falsy patches). -/
def collectBlocks (f : PRFile) : List CodeBlock :=
  match f.patch with
  | none => []
  | some p => if p = "" then [] else collectBlocksGo f.filename (splitOnChar '\n' p.data) []

/-- Code blocks of the whole change set, in file order. -/
def allCodeBlocks (files : List PRFile) : List CodeBlock :=
  files.flatMap collectBlocks

/-- All index pairs `i < j` of a list, in loop order. -/
def offDiagPairs {α : Type} : List α → List (α × α)
  | [] => []
  | x :: rest => rest.map (fun y => (x, y)) ++ offDiagPairs rest

/-- One iteration of the pairwise duplicate loop: skip when the shorter
block is below 70% of the longer, count a duplicate when the normalized
blocks are equal and longer than 50 characters. -/
def duplicatePairStep (acc : ℕ × ℕ) (p : CodeBlock × CodeBlock) : ℕ × ℕ :=
  if ((min p.1.lineCount p.2.lineCount : ℕ) : ℚ) <
      ((max p.1.lineCount p.2.lineCount : ℕ) : ℚ) * (7/10) then acc
  else
    let normalizedA := normalizeCode p.1.block
    let normalizedB := normalizeCode p.2.block
    if normalizedA = normalizedB ∧ 50 < normalizedA.length then
      (acc.1 + 1, acc.2 + min p.1.lineCount p.2.lineCount)
    else acc

/-- (duplicate block count, duplicated line total) of `copyPasteCheck`. -/
def duplicateStats (files : List PRFile) : ℕ × ℕ :=
  (offDiagPairs (allCodeBlocks files)).foldl duplicatePairStep (0, 0)

/-- Score bands of `copyPasteCheck` over the duplicate statistics. -/
def copyPasteScore (duplicateCount duplicatedLines : ℕ) : ℚ :=
  if duplicateCount = 0 then 0
  else if duplicateCount = 1 ∧ duplicatedLines < 15 then 20
  else if duplicateCount ≤ 3 then 50
  else 85

/-- `copyPasteCheck` of src/checks/content.ts. -/
def copyPasteCheck (files : List PRFile) : CheckResult :=
  let s := duplicateStats files
  { name := "copy_paste", score := copyPasteScore s.1 s.2
    reason := "Identical added blocks inside the diff." }

/-- Is a character one of the quote characters accepted by the import
patterns? -/
def isImportQuote (c : Char) : Bool := c = '"' || c = squoteChar

/-- The capture `([^'"./][^'"]*)['"]` of the import patterns: a non-quote,
non-relative first character, then everything up to the next quote.
Returns the captured module and the rest after the closing quote. -/
def captureModule : List Char → Option (String × List Char)
  | [] => none
  | c :: rest =>
    if c = '"' || c = squoteChar || c = '.' || c = '/' then none
    else
      let more := rest.takeWhile (fun d => !isImportQuote d)
      match rest.dropWhile (fun d => !isImportQuote d) with
      | _ :: rest2 => some (⟨c :: more⟩, rest2)
      | [] => none

/-- Scan for the last viable `\bfrom\s+['"]...` occurrence (the greedy `.*`
of the pattern selects the rightmost match). -/
def p1ScanGo : Char → List Char → Option String
  | _, [] => none
  | prev, c :: rest =>
    let here : Option String :=
      if c = 'f' && !isWordChar prev && listIsPrefix "rom".data rest then
        let w := wsRun (rest.drop 3)
        if 0 < w.1 then
          match w.2 with
          | q :: rest2 =>
            if isImportQuote q then (captureModule rest2).map Prod.fst else none
          | [] => none
        else none
      else none
    match p1ScanGo c rest with
    | some m => some m
    | none => here

/-- Import pattern 1: `^\+.*\bfrom\s+['"]([^'"./][^'"]*)['"]` (per line). -/
def p1Match (l : List Char) : Option String :=
  match l with
  | '+' :: rest => p1ScanGo '+' rest
  | _ => none

/-- Scan for the last viable `\brequire\s*\(\s*['"]...['"]\s*\)`
occurrence. -/
def p2ScanGo : Char → List Char → Option String
  | _, [] => none
  | prev, c :: rest =>
    let here : Option String :=
      if c = 'r' && !isWordChar prev && listIsPrefix "equire".data rest then
        let w1 := wsRun (rest.drop 6)
        match w1.2 with
        | '(' :: r2 =>
          let w2 := wsRun r2
          match w2.2 with
          | q :: r3 =>
            if isImportQuote q then
              match captureModule r3 with
              | some (m, r4) =>
                match (wsRun r4).2 with
                | ')' :: _ => some m
                | _ => none
              | none => none
            else none
          | [] => none
        | _ => none
      else none
    match p2ScanGo c rest with
    | some m => some m
    | none => here

/-- Import pattern 2: `^\+.*\brequire\s*\(\s*['"]([^'"./][^'"]*)['"]\s*\)`
(per line). -/
def p2Match (l : List Char) : Option String :=
  match l with
  | '+' :: rest => p2ScanGo '+' rest
  | _ => none

/-- Import pattern 3: `^\+\s*import\s+['"]([^'"./][^'"]*)['"]` (per
line). -/
def p3Match (l : List Char) : Option String :=
  match l with
  | '+' :: rest =>
    let t := (wsRun rest).2
    match expectLit "import".data t with
    | none => none
    | some r1 =>
      let w := wsRun r1
      if 0 < w.1 then
        match w.2 with
        | q :: r2 => if isImportQuote q then (captureModule r2).map Prod.fst else none
        | [] => none
      else none
  | _ => none

/-- Identifier continuation characters of import pattern 4. -/
def p4IdentChar (c : Char) : Bool :=
  ('a' ≤ c && c ≤ 'z') || ('A' ≤ c && c ≤ 'Z') || isDigitChar c || c = '_'

/-- Import pattern 4 (Python):
`^\+\s*(?:import|from)\s+([a-zA-Z_][a-zA-Z0-9_]*)(?:\s|$|\.)` (per
line). -/
def p4Match (l : List Char) : Option String :=
  match l with
  | '+' :: rest =>
    let t := (wsRun rest).2
    let afterKw :=
      match expectLit "import".data t with
      | some r => some r
      | none => expectLit "from".data t
    match afterKw with
    | none => none
    | some r1 =>
      let w := wsRun r1
      if 0 < w.1 then
        match w.2 with
        | c :: r2 =>
          if ('a' ≤ c && c ≤ 'z') || ('A' ≤ c && c ≤ 'Z') || c = '_' then
            let identRest := r2.takeWhile p4IdentChar
            match r2.dropWhile p4IdentChar with
            | [] => some ⟨c :: identRest⟩
            | d :: _ => if isJsWs d || d = '.' then some ⟨c :: identRest⟩ else none
          else none
        | [] => none
      else none
  | _ => none

/-- The four import patterns in source order. -/
def importPatternMatchers : List (List Char → Option String) :=
  [p1Match, p2Match, p3Match, p4Match]

/-- The built-in module allowlist of `hallucinatedImportCheck`. -/
def builtinModules : List String :=
  [ "fs", "path", "os", "util", "http", "https", "crypto", "stream"
  , "events", "buffer", "child_process", "cluster", "dgram", "dns"
  , "net", "readline", "tls", "url", "zlib", "assert", "querystring"
  , "string_decoder", "timers", "tty", "v8", "vm", "worker_threads"
  , "perf_hooks", "async_hooks", "node:fs", "node:path", "node:os"
  , "node:util", "node:http", "node:https", "node:crypto", "node:stream"
  , "node:events", "node:buffer", "node:child_process", "node:url"
  , "node:test", "node:assert"
  , "os", "sys", "json", "math", "time", "datetime", "re", "typing"
  , "collections", "itertools", "functools", "pathlib", "io", "abc"
  , "logging", "unittest", "argparse", "hashlib", "base64", "copy"
  , "dataclasses", "enum", "contextlib", "threading", "subprocess"
  , "tempfile", "shutil", "glob", "random", "string", "textwrap" ]

/-- Join path segments with `/`. -/
def joinSlash : List (List Char) → List Char
  | [] => []
  | [l] => l
  | l :: rest => l ++ '/' :: joinSlash rest

/-- Base package of a module specifier: the first two `/`-segments of a
scoped `@scope/name`, the first segment otherwise. -/
def baseModuleOf (moduleName : String) : String :=
  if listIsPrefix ['@'] moduleName.data then
    ⟨joinSlash ((splitOnChar '/' moduleName.data).take 2)⟩
  else ⟨(splitOnChar '/' moduleName.data).headD []⟩

/-- All base modules captured in one file's patch, pattern by pattern and
line by line. -/
def fileImportBases (f : PRFile) : List String :=
  match f.patch with
  | none => []
  | some p =>
    if p = "" then []
    else
      importPatternMatchers.flatMap (fun m =>
        (splitOnChar '\n' p.data).filterMap (fun line => (m line).map baseModuleOf))

/-- (total import count, suspicious import count) of
`hallucinatedImportCheck`. -/
def importScan (files : List PRFile) (projectDeps : List String) : ℕ × ℕ :=
  let bases := (files.map fileImportBases).flatten
  (bases.length,
    bases.countP (fun b => !builtinModules.contains b && !projectDeps.contains b))

/-- Score bands of `hallucinatedImportCheck` over the suspicious rate. -/
def hallucinatedImportScore (suspicious totalImports : ℕ) : ℚ :=
  if totalImports = 0 then 0
  else
    let suspiciousRate : ℚ := (suspicious : ℚ) / (totalImports : ℚ)
    if suspicious = 0 then 0
    else if suspicious = 1 ∧ suspiciousRate < 2/10 then 25
    else if suspiciousRate < 3/10 then 55
    else 90

/-- `hallucinatedImportCheck` of src/checks/content.ts (the project
dependency set as a list with membership). -/
def hallucinatedImportCheck (files : List PRFile) (projectDeps : List String) :
    CheckResult :=
  let s := importScan files projectDeps
  { name := "hallucinated_import", score := hallucinatedImportScore s.2 s.1
    reason := "Imports not found among known project dependencies." }

/-! ## Dependency parsers (src/checks/content.ts)

`parseDepsFromPackageJson` applies the platform JSON parser (`JSON.parse`,
external to the repository) inside a `try`/`catch`.  The parser is modeled
by its abstract outcome: `none` when `JSON.parse` throws on malformed text,
`some v` with the parsed JavaScript value otherwise.  Property access on
`null` throws inside the `try` block and is modeled by the `Except` body
below; the `catch` turns both failure modes into the empty set. -/

/-- A parsed JSON value. -/
inductive JsValue where
  | null : JsValue
  | bool : Bool → JsValue
  | num : ℚ → JsValue
  | str : String → JsValue
  | arr : List JsValue → JsValue
  | obj : List (String × JsValue) → JsValue

/-- Property access `v[key]`: `none` is JavaScript `undefined` (also for
every primitive receiver); access on `null` is handled by the caller, which
throws. -/
def getField : JsValue → String → Option JsValue
  | .obj fields, key => (fields.find? (fun f => f.1 == key)).map Prod.snd
  | _, _ => none

/-- JavaScript truthiness of a possibly-undefined value. -/
def jsTruthy : Option JsValue → Bool
  | none => false
  | some .null => false
  | some (.bool b) => b
  | some (.num q) => !(q == 0)
  | some (.str s) => !(s == "")
  | some (.arr _) => true
  | some (.obj _) => true

/-- `Object.keys`: field names of an object, index strings of an array or
string, empty for other primitives. -/
def objectKeys : JsValue → List String
  | .obj fields => fields.map Prod.fst
  | .arr l => (List.range l.length).map (fun i => toString i)
  | .str s => (List.range s.length).map (fun i => toString i)
  | _ => []

/-- Insertion into a JavaScript `Set` kept as an insertion-ordered list. -/
def setAdd (l : List String) (s : String) : List String :=
  if l.contains s then l else l ++ [s]

/-- Deduplicate preserving first occurrences (the `Set` the source
accumulates into). -/
def setOfList (l : List String) : List String := l.foldl setAdd []

/-- `if (pkg.group) Object.keys(pkg.group).forEach(add)` for one dependency
group. -/
def depGroupKeys (v : JsValue) (key : String) : List String :=
  let f := getField v key
  if jsTruthy f then objectKeys (f.getD .null) else []

/-- The `try` body of `parseDepsFromPackageJson` on a parsed value:
property access on `null` throws, otherwise the keys of the three
dependency groups are collected. -/
def pkgDepsBody : JsValue → Except Unit (List String)
  | .null => .error ()
  | v =>
    .ok (setOfList (depGroupKeys v "dependencies" ++ depGroupKeys v "devDependencies" ++
      depGroupKeys v "peerDependencies"))

/-- `parseDepsFromPackageJson`: the `catch` yields the empty set both when
`JSON.parse` throws (`none`) and when the body throws. -/
def parseDepsFromPackageJson (parsed : Option JsValue) : List String :=
  match parsed with
  | none => []
  | some v =>
    match pkgDepsBody v with
    | .error _ => []
    | .ok deps => deps

/-- The version-specifier and extras separators of the requirements parser
(`split(/[>=<!~\s\[]/)`). -/
def reqSepChar (c : Char) : Bool :=
  c = '>' || c = '=' || c = '<' || c = '!' || c = '~' || c = '[' || isJsWs c

/-- `parseDepsFromRequirements` of src/checks/content.ts. -/
def parseDepsFromRequirements (content : String) : List String :=
  (splitOnChar '\n' content.data).foldl (fun deps line =>
    let trimmed := jsTrimList line
    if trimmed.isEmpty || listIsPrefix ['#'] trimmed || listIsPrefix ['-'] trimmed then deps
    else
      let name := lowerList (trimmed.takeWhile (fun c => !reqSepChar c))
      if name.isEmpty then deps else setAdd deps ⟨name⟩) []

/-- Identifier characters of a Cargo dependency name
(`[a-zA-Z0-9_-]`). -/
def cargoIdentChar (c : Char) : Bool :=
  ('a' ≤ c && c ≤ 'z') || ('A' ≤ c && c ≤ 'Z') || isDigitChar c || c = '_' || c = '-'

/-- Section-header test `^\[(?:dev-)?dependencies(?:\.[^\]]+)?\]` of the
Cargo parser. -/
def cargoSectionIsDeps (t : List Char) : Bool :=
  match t with
  | '[' :: r1 =>
    let r2 := if listIsPrefix "dev-".data r1 then r1.drop 4 else r1
    (match expectLit "dependencies".data r2 with
     | none => false
     | some r3 =>
       match r3 with
       | '.' :: r4 =>
         let body := r4.takeWhile (fun c => !(c = ']'))
         !body.isEmpty && listIsPrefix [']'] (r4.dropWhile (fun c => !(c = ']')))
       | _ => listIsPrefix [']'] r3)
  | _ => false

/-- Dependency-line match `^([a-zA-Z_][a-zA-Z0-9_-]*)\s*=` of the Cargo
parser. -/
def cargoDepName (t : List Char) : Option String :=
  match t with
  | [] => none
  | c :: rest =>
    if ('a' ≤ c && c ≤ 'z') || ('A' ≤ c && c ≤ 'Z') || c = '_' then
      let runChars := rest.takeWhile cargoIdentChar
      match (rest.dropWhile cargoIdentChar).dropWhile isJsWs with
      | '=' :: _ => some ⟨c :: runChars⟩
      | _ => none
    else none

/-- `parseDepsFromCargoToml` of src/checks/content.ts: tracks whether the
current `[section]` is a dependency table. -/
def parseDepsFromCargoToml (content : String) : List String :=
  ((splitOnChar '\n' content.data).foldl (fun acc line =>
    let trimmed := jsTrimList line
    if listIsPrefix ['['] trimmed then (acc.1, cargoSectionIsDeps trimmed)
    else if acc.2 then
      match cargoDepName trimmed with
      | some name => (setAdd acc.1 name, acc.2)
      | none => acc
    else acc) (([], false) : List String × Bool)).1

/-! ## Bound predicates and concrete fixtures used by the theorems -/

/-- A check score within the documented `[0,100]` range. -/
def scoreBounded (r : CheckResult) : Prop := 0 ≤ r.score ∧ r.score ≤ 100

/-- All twelve configured weights within `[0,100]` (the schema bounds). -/
def WeightsInRange (w : Weights) : Prop :=
  (0 ≤ w.velocity ∧ w.velocity ≤ 100) ∧
  (0 ≤ w.abandonment ∧ w.abandonment ≤ 100) ∧
  (0 ≤ w.shotgun ∧ w.shotgun ≤ 100) ∧
  (0 ≤ w.new_account ∧ w.new_account ≤ 100) ∧
  (0 ≤ w.placeholder ∧ w.placeholder ≤ 100) ∧
  (0 ≤ w.hallucinated_import ∧ w.hallucinated_import ≤ 100) ∧
  (0 ≤ w.docstring_inflation ∧ w.docstring_inflation ≤ 100) ∧
  (0 ≤ w.copy_paste ∧ w.copy_paste ≤ 100) ∧
  (0 ≤ w.generic_description ∧ w.generic_description ≤ 100) ∧
  (0 ≤ w.oversized_diff ∧ w.oversized_diff ≤ 100) ∧
  (0 ≤ w.unrelated_changes ∧ w.unrelated_changes ≤ 100) ∧
  (0 ≤ w.formatting_only ∧ w.formatting_only ≤ 100)

/-- Fixture: the default configuration with the velocity check disabled. -/
def zeroVelocityConfig : SlopGateConfig :=
  { DEFAULT_CONFIG with weights := { DEFAULT_CONFIG.weights with velocity := 0 } }

/-- Fixture: a velocity check result. -/
def velocityResult : CheckResult := { name := "velocity", score := 42, reason := "r" }

/-- Fixture: a placeholder check result. -/
def placeholderResult : CheckResult := { name := "placeholder", score := 60, reason := "r" }

/-- Fixture: a PR for the shotgun evaluation. -/
def shotgunCur : PullRequestData :=
  { number := 1, title := "Add oauth", body := ""
    user := { login := "u", type := "User", created_at := 0 }
    created_at := 0, changed_files := 0, additions := 0, deletions := 0 }

/-- Fixture: three cross-repo PRs with identical titles. -/
def shotgunPubs : List ContributorPR :=
  [ { number := 2, title := "add oauth", body := none, state := "open", created_at := 0 }
  , { number := 3, title := "Add oauth", body := none, state := "open", created_at := 0 }
  , { number := 4, title := "add oauth ", body := none, state := "open", created_at := 0 } ]

/-- Fixture: a PR with 1500 changed lines and a 100-character body. -/
def prBigDiff : PullRequestData :=
  { number := 7, title := "big change"
    body := "abcdefghijabcdefghijabcdefghijabcdefghijabcdefghijabcdefghijabcdefghijabcdefghijabcdefghijabcdefghij"
    user := { login := "u", type := "User", created_at := 0 }
    created_at := 0, changed_files := 3, additions := 1500, deletions := 0 }

/-- Fixture: a diff with one 15-line added block repeated twice. -/
def dupPatch : String :=
  ⟨joinLines (List.replicate 15 "+ab cd".data ++ ["x".data] ++
    List.replicate 15 "+ab cd".data)⟩

/-- Fixture: the file list around `dupPatch`. -/
def dupFiles : List PRFile :=
  [{ filename := "a.ts", status := "modified", additions := 30, deletions := 0
     changes := 30, patch := some dupPatch }]

/-- Fixture: a patch with a single added ES-module import line
(`+import lodash from 'lodash'`). -/
def importPatch : String :=
  ⟨"+import lodash from ".data ++ squoteChar :: ("lodash".data ++ [squoteChar])⟩

/-- Fixture: the file list around `importPatch`. -/
def importFiles : List PRFile :=
  [{ filename := "a.ts", status := "modified", additions := 1, deletions := 0
     changes := 1, patch := some importPatch }]

/-! # Theorems -/

/-! ### Edit-distance lemmas -/

theorem levF_fuel_eq (f : ℕ) : ∀ (g : ℕ) (xs ys : List Char),
    xs.length + ys.length ≤ f → xs.length + ys.length ≤ g →
    levF f xs ys = levF g xs ys := by
  induction f with
  | zero =>
    intro g xs ys hf hg
    cases xs with
    | cons x xs => simp at hf
    | nil =>
      cases ys with
      | cons y ys => simp at hf
      | nil => cases g <;> rfl
  | succ f ih =>
    intro g xs ys hf hg
    cases xs with
    | nil =>
      cases ys with
      | nil => cases g <;> rfl
      | cons y ys =>
        cases g with
        | zero => simp at hg
        | succ g => rfl
    | cons x xs =>
      cases g with
      | zero => simp at hg
      | succ g =>
        cases ys with
        | nil => rfl
        | cons y ys =>
          simp only [levF]
          simp only [List.length_cons] at hf hg
          rw [ih g xs (y :: ys) (by simp [List.length_cons]; omega)
              (by simp [List.length_cons]; omega),
            ih g (x :: xs) ys (by simp [List.length_cons]; omega)
              (by simp [List.length_cons]; omega),
            ih g xs ys (by omega) (by omega)]

theorem lev_nil_left (ys : List Char) : lev [] ys = ys.length := by
  cases ys <;> rfl

theorem lev_nil_right (xs : List Char) : lev xs [] = xs.length := by
  cases xs <;> rfl

theorem lev_cons_cons (x y : Char) (xs ys : List Char) :
    lev (x :: xs) (y :: ys) =
      min (min (lev xs (y :: ys) + 1) (lev (x :: xs) ys + 1))
        (lev xs ys + if x = y then 0 else 1) := by
  have h1 : levF (xs.length + ys.length + 1) xs (y :: ys) = lev xs (y :: ys) :=
    levF_fuel_eq _ _ _ _ (by simp only [List.length_cons]; omega)
      (by simp only [List.length_cons]; omega)
  have h2 : levF (xs.length + ys.length + 1) (x :: xs) ys = lev (x :: xs) ys :=
    levF_fuel_eq _ _ _ _ (by simp only [List.length_cons]; omega)
      (by simp only [List.length_cons]; omega)
  have h3 : levF (xs.length + ys.length + 1) xs ys = lev xs ys :=
    levF_fuel_eq _ _ _ _ (by omega) (by omega)
  have hlen : (x :: xs).length + (y :: ys).length = (xs.length + ys.length + 1) + 1 := by
    simp [List.length_cons]; omega
  show levF ((x :: xs).length + (y :: ys).length) (x :: xs) (y :: ys) = _
  rw [hlen]
  simp only [levF]
  rw [h1, h2, h3]

theorem lev_symm (xs : List Char) : ∀ ys, lev xs ys = lev ys xs := by
  induction xs with
  | nil => intro ys; rw [lev_nil_left, lev_nil_right]
  | cons x xs ih =>
    intro ys
    induction ys with
    | nil => rw [lev_nil_left, lev_nil_right]
    | cons y ys ih2 =>
      rw [lev_cons_cons, lev_cons_cons]
      rw [ih (y :: ys), ih2, ih ys]
      have hc : (if x = y then 0 else 1) = (if y = x then 0 else 1) := by
        simp [eq_comm]
      rw [hc]
      omega

/-! ### Similarity symmetry -/

theorem jaccardSimilarity_symm (a b : String) :
    jaccardSimilarity a b = jaccardSimilarity b a := by
  simp only [jaccardSimilarity]
  rw [Finset.inter_comm, Nat.add_comm ((jsSplitWs a).toFinset.card)]

theorem levenshteinSimilarity_symm (a b : String) :
    levenshteinSimilarity a b = levenshteinSimilarity b a := by
  by_cases hab : a = b
  · subst hab; rfl
  · have hba : ¬ b = a := fun h => hab h.symm
    unfold levenshteinSimilarity
    rw [if_neg hab, if_neg hba]
    by_cases h0 : a.length = 0 ∨ b.length = 0
    · rw [if_pos h0, if_pos (Or.symm h0)]
    · rw [if_neg h0, if_neg (fun h => h0 (Or.symm h))]
      by_cases h5 : 500 < a.length ∨ 500 < b.length
      · rw [if_pos h5, if_pos (Or.symm h5), jaccardSimilarity_symm]
      · rw [if_neg h5, if_neg (fun h => h5 (Or.symm h))]
        rw [lev_symm a.data b.data, sup_comm ((a.length : ℚ)) ((b.length : ℚ))]

/-- C5: the similarity function returns 1 on identical strings, 0 when the
first string is empty and the second is not, and is symmetric in its two
arguments (the Jaccard fallback included). -/
theorem C5_similarity_props :
    (∀ s : String, levenshteinSimilarity s s = 1) ∧
    (∀ x : String, x ≠ "" → levenshteinSimilarity "" x = 0) ∧
    (∀ a b : String, levenshteinSimilarity a b = levenshteinSimilarity b a) := by
  refine ⟨fun s => ?_, fun x hx => ?_, levenshteinSimilarity_symm⟩
  · unfold levenshteinSimilarity
    rw [if_pos rfl]
  · unfold levenshteinSimilarity
    rw [if_neg (fun h => hx h.symm), if_pos (Or.inl (by decide))]

/-- C5 witness: the empty/non-empty case at a concrete pair and the
reflexive case at a concrete string. -/
theorem C5_similarity_props_witness :
    levenshteinSimilarity "" "abc" = 0 ∧ levenshteinSimilarity "kitten" "kitten" = 1 :=
  ⟨C5_similarity_props.2.1 "abc" (by decide), C5_similarity_props.1 "kitten"⟩

/-! ### Score band bounds -/

theorem velocityScore_bounds (n : ℕ) : 0 ≤ velocityScore n ∧ velocityScore n ≤ 100 := by
  unfold velocityScore; split_ifs <;> norm_num

theorem abandonmentScore_bounds (rate : ℚ) :
    0 ≤ abandonmentScore rate ∧ abandonmentScore rate ≤ 100 := by
  unfold abandonmentScore; split_ifs <;> norm_num

theorem shotgunScore_bounds (t b n : ℕ) :
    0 ≤ shotgunScore t b n ∧ shotgunScore t b n ≤ 100 := by
  simp only [shotgunScore]; split_ifs <;> norm_num

theorem newAccountScore_bounds (age : ℤ) (fp : Bool) :
    0 ≤ newAccountScore age fp ∧ newAccountScore age fp ≤ 100 := by
  unfold newAccountScore; split_ifs <;> norm_num

theorem placeholderScore_bounds (i l : ℕ) :
    0 ≤ placeholderScore i l ∧ placeholderScore i l ≤ 100 := by
  simp only [placeholderScore]; split_ifs <;> norm_num

theorem hallucinatedImportScore_bounds (s t : ℕ) :
    0 ≤ hallucinatedImportScore s t ∧ hallucinatedImportScore s t ≤ 100 := by
  simp only [hallucinatedImportScore]; split_ifs <;> norm_num

theorem docstringScore_bounds (c d : ℕ) :
    0 ≤ docstringScore c d ∧ docstringScore c d ≤ 100 := by
  simp only [docstringScore]; split_ifs <;> norm_num

theorem copyPasteScore_bounds (c l : ℕ) :
    0 ≤ copyPasteScore c l ∧ copyPasteScore c l ≤ 100 := by
  unfold copyPasteScore; split_ifs <;> norm_num

theorem genericDescriptionScore_bounds (a b c d : Bool) :
    0 ≤ genericDescriptionScore a b c d ∧ genericDescriptionScore a b c d ≤ 100 := by
  unfold genericDescriptionScore; split_ifs <;> norm_num

theorem oversizedDiffScore_bounds (t d : ℕ) :
    0 ≤ oversizedDiffScore t d ∧ oversizedDiffScore t d ≤ 100 := by
  simp only [oversizedDiffScore]; split_ifs <;> norm_num

theorem unrelatedScore_bounds (d : ℕ) (r : Bool) :
    0 ≤ unrelatedScore d r ∧ unrelatedScore d r ≤ 100 := by
  unfold unrelatedScore; split_ifs <;> norm_num

theorem formattingScore_bounds (f s : ℕ) (c : Bool) :
    0 ≤ formattingScore f s c ∧ formattingScore f s c ≤ 100 := by
  simp only [formattingScore]; split_ifs <;> norm_num

/-! ### Check-level score bounds -/

theorem velocityCheck_bounded (now : ℤ) (prs : List ContributorPR) :
    scoreBounded (velocityCheck now prs) := velocityScore_bounds _

theorem abandonmentCheck_bounded (stats : AbandonStats) :
    scoreBounded (abandonmentCheck stats) := by
  unfold abandonmentCheck scoreBounded
  split_ifs
  · exact ⟨by norm_num, by norm_num⟩
  · exact abandonmentScore_bounds _

theorem shotgunCheck_bounded (cur : PullRequestData) (pubs : List ContributorPR) :
    scoreBounded (shotgunCheck cur pubs) := by
  unfold shotgunCheck scoreBounded
  dsimp only
  split_ifs
  · exact ⟨by norm_num, by norm_num⟩
  · exact shotgunScore_bounds _ _ _

theorem newAccountCheck_bounded (now : ℤ) (pr : PullRequestData)
    (prs : List ContributorPR) : scoreBounded (newAccountCheck now pr prs) :=
  newAccountScore_bounds _ _

theorem placeholderCheck_bounded (files : List PRFile) :
    scoreBounded (placeholderCheck files) := by
  unfold placeholderCheck scoreBounded
  dsimp only
  split_ifs
  · exact ⟨by norm_num, by norm_num⟩
  · exact placeholderScore_bounds _ _

theorem hallucinatedImportCheck_bounded (files : List PRFile) (deps : List String) :
    scoreBounded (hallucinatedImportCheck files deps) :=
  hallucinatedImportScore_bounds _ _

theorem docstringInflationCheck_bounded (files : List PRFile) :
    scoreBounded (docstringInflationCheck files) := docstringScore_bounds _ _

theorem copyPasteCheck_bounded (files : List PRFile) :
    scoreBounded (copyPasteCheck files) := copyPasteScore_bounds _ _

theorem genericDescriptionCheck_bounded (pr : PullRequestData) :
    scoreBounded (genericDescriptionCheck pr) := genericDescriptionScore_bounds _ _ _ _

theorem oversizedDiffCheck_bounded (pr : PullRequestData) :
    scoreBounded (oversizedDiffCheck pr) := oversizedDiffScore_bounds _ _

theorem unrelatedChangesCheck_bounded (files : List PRFile) :
    scoreBounded (unrelatedChangesCheck files) := by
  unfold unrelatedChangesCheck scoreBounded
  dsimp only
  split_ifs
  · exact ⟨by norm_num, by norm_num⟩
  · exact unrelatedScore_bounds _ _

theorem formattingOnlyCheck_bounded (pr : PullRequestData) (files : List PRFile) :
    scoreBounded (formattingOnlyCheck pr files) := formattingScore_bounds _ _ _

/-! ### Aggregator bounds -/

set_option maxHeartbeats 1600000 in
theorem resolveWeight_bounds (w : Weights) (hw : WeightsInRange w) (name : String) :
    0 ≤ resolveWeight w name ∧ resolveWeight w name ≤ 100 := by
  obtain ⟨h1, h2, h3, h4, h5, h6, h7, h8, h9, h10, h11, h12⟩ := hw
  unfold resolveWeight
  split_ifs <;>
    first
      | exact h1 | exact h2 | exact h3 | exact h4 | exact h5 | exact h6
      | exact h7 | exact h8 | exact h9 | exact h10 | exact h11 | exact h12
      | exact ⟨by norm_num, by norm_num⟩

theorem scorePass_bounds (cfg : SlopGateConfig) (hw : WeightsInRange cfg.weights) :
    ∀ checks : List CheckResult, (∀ c ∈ checks, scoreBounded c) →
      0 ≤ (scorePass cfg checks).1 ∧ 0 ≤ (scorePass cfg checks).2.1 ∧
        (scorePass cfg checks).2.1 ≤ (scorePass cfg checks).1 := by
  intro checks
  induction checks with
  | nil => intro _; simp [scorePass]
  | cons c rest ih =>
    intro hb
    have hc : scoreBounded c := hb c (List.mem_cons_self c rest)
    have hrest := ih (fun d hd => hb d (List.mem_cons_of_mem c hd))
    have hwc := resolveWeight_bounds cfg.weights hw c.name
    simp only [scorePass]
    split_ifs with h0
    · exact hrest
    · refine ⟨add_nonneg hrest.1 hwc.1, add_nonneg hrest.2.1 ?_, add_le_add hrest.2.2 ?_⟩
      · exact div_nonneg (mul_nonneg hc.1 hwc.1) (by norm_num)
      · have hsw : c.score * resolveWeight cfg.weights c.name ≤
            100 * resolveWeight cfg.weights c.name :=
          mul_le_mul_of_nonneg_right hc.2 hwc.1
        rw [div_le_iff₀ (by norm_num : (0:ℚ) < 100)]
        linarith

theorem jsRound_bounds (q : ℚ) (h0 : 0 ≤ q) (h1 : q ≤ 100) :
    0 ≤ jsRound q ∧ jsRound q ≤ 100 := by
  unfold jsRound
  constructor
  · exact Int.le_floor.mpr (by push_cast; linarith)
  · have h : (⌊q + 1/2⌋ : ℤ) < 101 := Int.floor_lt.mpr (by push_cast; linarith)
    omega

theorem calculateScore_finalScore_bounds (checks : List CheckResult)
    (cfg : SlopGateConfig) (hb : ∀ c ∈ checks, scoreBounded c)
    (hw : WeightsInRange cfg.weights) :
    0 ≤ (calculateScore checks cfg).finalScore ∧
      (calculateScore checks cfg).finalScore ≤ 100 := by
  have h := scorePass_bounds cfg hw checks hb
  have hfs : (calculateScore checks cfg).finalScore =
      if 0 < (scorePass cfg checks).1 then
        jsRound ((scorePass cfg checks).2.1 / (scorePass cfg checks).1 * 100)
      else 0 := rfl
  rw [hfs]
  split_ifs with hpos
  · apply jsRound_bounds
    · exact mul_nonneg (div_nonneg h.2.1 (le_of_lt hpos)) (by norm_num)
    · have hle : (scorePass cfg checks).2.1 / (scorePass cfg checks).1 ≤ 1 :=
        (div_le_one hpos).mpr h.2.2
      linarith
  · exact ⟨le_refl 0, by norm_num⟩

/-- C1: for bounded input scores and configured weights in `[0,100]`, the
aggregated `finalScore` lies in `[0,100]`; and each of the twelve check
functions produces a score in `[0,100]` on every input. -/
theorem C1_scores_bounded :
    (∀ (checks : List CheckResult) (cfg : SlopGateConfig),
      (∀ c ∈ checks, scoreBounded c) → WeightsInRange cfg.weights →
        0 ≤ (calculateScore checks cfg).finalScore ∧
          (calculateScore checks cfg).finalScore ≤ 100) ∧
    (∀ now prs, scoreBounded (velocityCheck now prs)) ∧
    (∀ stats, scoreBounded (abandonmentCheck stats)) ∧
    (∀ cur pubs, scoreBounded (shotgunCheck cur pubs)) ∧
    (∀ now pr prs, scoreBounded (newAccountCheck now pr prs)) ∧
    (∀ files, scoreBounded (placeholderCheck files)) ∧
    (∀ files deps, scoreBounded (hallucinatedImportCheck files deps)) ∧
    (∀ files, scoreBounded (docstringInflationCheck files)) ∧
    (∀ files, scoreBounded (copyPasteCheck files)) ∧
    (∀ pr, scoreBounded (genericDescriptionCheck pr)) ∧
    (∀ pr, scoreBounded (oversizedDiffCheck pr)) ∧
    (∀ files, scoreBounded (unrelatedChangesCheck files)) ∧
    (∀ pr files, scoreBounded (formattingOnlyCheck pr files)) :=
  ⟨calculateScore_finalScore_bounds, velocityCheck_bounded, abandonmentCheck_bounded,
    shotgunCheck_bounded, newAccountCheck_bounded, placeholderCheck_bounded,
    hallucinatedImportCheck_bounded, docstringInflationCheck_bounded,
    copyPasteCheck_bounded, genericDescriptionCheck_bounded, oversizedDiffCheck_bounded,
    unrelatedChangesCheck_bounded, formattingOnlyCheck_bounded⟩

/-- C1 witness: the aggregator bound instantiated at one bounded check and
the default configuration. -/
theorem C1_scores_bounded_witness :
    0 ≤ (calculateScore [velocityResult] DEFAULT_CONFIG).finalScore ∧
      (calculateScore [velocityResult] DEFAULT_CONFIG).finalScore ≤ 100 :=
  C1_scores_bounded.1 [velocityResult] DEFAULT_CONFIG
    (by
      intro c hc
      rcases List.mem_singleton.mp hc with rfl
      exact ⟨by norm_num [velocityResult], by norm_num [velocityResult]⟩)
    (by norm_num [WeightsInRange, DEFAULT_CONFIG])

/-- C2: `finalScore` is the rounded weight-normalized mean
`round(totalWeightedScore / totalWeight * 100)` over the included checks
when the total weight is positive and `0` otherwise; a single check with
score 100 and weight 80 yields `finalScore = 100`. -/
theorem C2_final_score_formula :
    (∀ (checks : List CheckResult) (cfg : SlopGateConfig),
      (calculateScore checks cfg).finalScore =
        if 0 < (scorePass cfg checks).1 then
          jsRound ((scorePass cfg checks).2.1 / (scorePass cfg checks).1 * 100)
        else 0) ∧
    (calculateScore [{ name := "velocity", score := 100, reason := "" }]
      DEFAULT_CONFIG).finalScore = 100 := by
  constructor
  · intro checks cfg; rfl
  · have h : scorePass DEFAULT_CONFIG
        [{ name := "velocity", score := 100, reason := "" }] =
        (80, 80, [{ check := { name := "velocity", score := 100, reason := "" },
                    weight := 80, weightedScore := 80 }]) := by
      norm_num [scorePass, resolveWeight, DEFAULT_CONFIG]
    have hfs : (calculateScore [{ name := "velocity", score := 100, reason := "" }]
        DEFAULT_CONFIG).finalScore =
        if 0 < (scorePass DEFAULT_CONFIG
            [{ name := "velocity", score := 100, reason := "" }]).1 then
          jsRound ((scorePass DEFAULT_CONFIG
              [{ name := "velocity", score := 100, reason := "" }]).2.1 /
            (scorePass DEFAULT_CONFIG
              [{ name := "velocity", score := 100, reason := "" }]).1 * 100)
        else 0 := rfl
    rw [hfs, h]
    norm_num [jsRound]

/-- C3: with thresholds ordered `warn ≤ flag ≤ block`, the verdict is the
highest band whose threshold the score meets, boundaries inclusive; a score
exactly at the flag threshold is never classified `warn` or `pass`. -/
theorem C3_verdict_bands (score : ℚ) (cfg : SlopGateConfig)
    (hwf : cfg.thresholds.warn ≤ cfg.thresholds.flag)
    (hfb : cfg.thresholds.flag ≤ cfg.thresholds.block) :
    (cfg.thresholds.block ≤ score → getVerdict score cfg = .block) ∧
    (score < cfg.thresholds.block → cfg.thresholds.flag ≤ score →
      getVerdict score cfg = .flag) ∧
    (score < cfg.thresholds.flag → cfg.thresholds.warn ≤ score →
      getVerdict score cfg = .warn) ∧
    (score < cfg.thresholds.warn → getVerdict score cfg = .pass) ∧
    (score = cfg.thresholds.flag →
      getVerdict score cfg ≠ .warn ∧ getVerdict score cfg ≠ .pass) ∧
    (score = cfg.thresholds.flag → score < cfg.thresholds.block →
      getVerdict score cfg = .flag) := by
  refine ⟨fun h => ?_, fun h1 h2 => ?_, fun h1 h2 => ?_, fun h => ?_, fun h => ?_,
    fun h1 h2 => ?_⟩
  · unfold getVerdict; rw [if_pos h]
  · unfold getVerdict; rw [if_neg (by linarith), if_pos h2]
  · unfold getVerdict; rw [if_neg (by linarith), if_neg (by linarith), if_pos h2]
  · unfold getVerdict; rw [if_neg (by linarith), if_neg (by linarith), if_neg (by linarith)]
  · subst h
    unfold getVerdict
    constructor <;> split_ifs <;> simp_all
  · unfold getVerdict; rw [if_neg (by linarith), if_pos (le_of_eq h1.symm)]

/-- C3 witness: a score exactly at the default flag threshold maps to
`flag`. -/
theorem C3_verdict_bands_witness : getVerdict 60 DEFAULT_CONFIG = .flag :=
  (C3_verdict_bands 60 DEFAULT_CONFIG (by norm_num [DEFAULT_CONFIG])
    (by norm_num [DEFAULT_CONFIG])).2.1
    (by norm_num [DEFAULT_CONFIG]) (by norm_num [DEFAULT_CONFIG])

/-! ### Disabled-check lemmas -/

theorem scorePass_skip (cfg : SlopGateConfig) (c : CheckResult)
    (hc : resolveWeight cfg.weights c.name = 0) :
    ∀ l1 l2 : List CheckResult, scorePass cfg (l1 ++ c :: l2) = scorePass cfg (l1 ++ l2) := by
  intro l1
  induction l1 with
  | nil => intro l2; simp [scorePass, hc]
  | cons d rest ih =>
    intro l2
    simp only [List.cons_append, scorePass, List.append_eq, ih]

theorem scorePass_mem_weight (cfg : SlopGateConfig) :
    ∀ (checks : List CheckResult), ∀ e ∈ (scorePass cfg checks).2.2,
      resolveWeight cfg.weights e.check.name ≠ 0 := by
  intro checks
  induction checks with
  | nil => intro e he; simp [scorePass] at he
  | cons c rest ih =>
    intro e he
    simp only [scorePass] at he
    split_ifs at he with h0
    · exact ih e he
    · rcases List.mem_cons.mp he with rfl | hmem
      · exact h0
      · exact ih e hmem

/-- C4: a check whose resolved weight is `0` never appears in
`weightedChecks`, and removing it from the input list leaves `finalScore`
unchanged. -/
theorem C4_disabled_check (l1 l2 : List CheckResult) (c : CheckResult)
    (cfg : SlopGateConfig) (hc : resolveWeight cfg.weights c.name = 0) :
    (∀ e ∈ (calculateScore (l1 ++ c :: l2) cfg).weightedChecks, e.check ≠ c) ∧
    (calculateScore (l1 ++ c :: l2) cfg).finalScore =
      (calculateScore (l1 ++ l2) cfg).finalScore := by
  constructor
  · intro e he heq
    have hwc : (calculateScore (l1 ++ c :: l2) cfg).weightedChecks =
        ((scorePass cfg (l1 ++ c :: l2)).2.2).mergeSort
          (fun a b => b.weightedScore ≤ a.weightedScore) := rfl
    rw [hwc] at he
    have hmem : e ∈ (scorePass cfg (l1 ++ c :: l2)).2.2 := List.mem_mergeSort.mp he
    exact scorePass_mem_weight cfg (l1 ++ c :: l2) e hmem (by rw [heq]; exact hc)
  · have h := scorePass_skip cfg c hc l1 l2
    have hfs : ∀ checks, (calculateScore checks cfg).finalScore =
        if 0 < (scorePass cfg checks).1 then
          jsRound ((scorePass cfg checks).2.1 / (scorePass cfg checks).1 * 100)
        else 0 := fun _ => rfl
    rw [hfs, hfs, h]

/-- C4 witness: disabling the velocity check leaves the final score of the
remaining check list unchanged. -/
theorem C4_disabled_check_witness :
    (calculateScore [velocityResult, placeholderResult] zeroVelocityConfig).finalScore =
      (calculateScore [placeholderResult] zeroVelocityConfig).finalScore :=
  (C4_disabled_check [] [placeholderResult] velocityResult zeroVelocityConfig
    (by simp [resolveWeight, velocityResult, zeroVelocityConfig, DEFAULT_CONFIG])).2

/-- C6: `shotgunCheck` excludes exactly the entries with the current PR
number; with no comparable PRs the score is 0; otherwise the score follows
the 0/90/60/25 decision chain over the title and body match counts. -/
theorem C6_shotgun_check (cur : PullRequestData) (pubs : List ContributorPR) :
    shotgunOthers cur pubs = pubs.filter (fun pr => pr.number ≠ cur.number) ∧
    (shotgunOthers cur pubs = [] → (shotgunCheck cur pubs).score = 0) ∧
    (shotgunOthers cur pubs ≠ [] →
      ((shotgunTitleMatches cur (shotgunOthers cur pubs) = 0 ∧
          shotgunBodyMatches cur (shotgunOthers cur pubs) = 0) →
        (shotgunCheck cur pubs).score = 0) ∧
      (¬(shotgunTitleMatches cur (shotgunOthers cur pubs) = 0 ∧
          shotgunBodyMatches cur (shotgunOthers cur pubs) = 0) →
        ((3 ≤ shotgunTitleMatches cur (shotgunOthers cur pubs) ∨
            2 ≤ shotgunBodyMatches cur (shotgunOthers cur pubs)) →
          (shotgunCheck cur pubs).score = 90) ∧
        (¬(3 ≤ shotgunTitleMatches cur (shotgunOthers cur pubs) ∨
            2 ≤ shotgunBodyMatches cur (shotgunOthers cur pubs)) →
          ((2 ≤ shotgunTitleMatches cur (shotgunOthers cur pubs) ∨
              1/2 < (shotgunTitleMatches cur (shotgunOthers cur pubs) : ℚ) /
                ((shotgunOthers cur pubs).length : ℚ)) →
            (shotgunCheck cur pubs).score = 60) ∧
          (¬(2 ≤ shotgunTitleMatches cur (shotgunOthers cur pubs) ∨
              1/2 < (shotgunTitleMatches cur (shotgunOthers cur pubs) : ℚ) /
                ((shotgunOthers cur pubs).length : ℚ)) →
            (shotgunCheck cur pubs).score = 25)))) := by
  refine ⟨rfl, fun hemp => ?_, fun hne => ?_⟩
  · simp [shotgunCheck, hemp]
  · have hne2 : (shotgunOthers cur pubs).isEmpty = false := by
      cases h : shotgunOthers cur pubs with
      | nil => exact absurd h hne
      | cons a l => rfl
    have hsc : (shotgunCheck cur pubs).score =
        shotgunScore (shotgunTitleMatches cur (shotgunOthers cur pubs))
          (shotgunBodyMatches cur (shotgunOthers cur pubs))
          (shotgunOthers cur pubs).length := by
      simp [shotgunCheck, hne2]
    refine ⟨fun h0 => ?_, fun hn0 => ⟨fun h90 => ?_, fun hn90 =>
      ⟨fun h60 => ?_, fun hn60 => ?_⟩⟩⟩
    · rw [hsc]; simp only [shotgunScore]; rw [if_pos h0]
    · rw [hsc]; simp only [shotgunScore]; rw [if_neg hn0, if_pos h90]
    · rw [hsc]; simp only [shotgunScore]; rw [if_neg hn0, if_neg hn90, if_pos h60]
    · rw [hsc]; simp only [shotgunScore]; rw [if_neg hn0, if_neg hn90, if_neg hn60]

/-- C6 witness: three other PRs with the same title give the 90 band. -/
theorem C6_shotgun_check_witness : (shotgunCheck shotgunCur shotgunPubs).score = 90 :=
  (((C6_shotgun_check shotgunCur shotgunPubs).2.2 (by decide)).2 (by decide)).1 (by decide)

/-- C7 counterexample: a PR with 1500 changed lines and a 100-character
description still lands in the score-40 branch, so the branch is reachable
with `totalChanges > 1000`, contrary to the claim. -/
theorem C7_counterexample :
    1000 < prBigDiff.additions + prBigDiff.deletions ∧
    (oversizedDiffCheck prBigDiff).score = 40 := by
  constructor
  · decide
  · have hfs : (oversizedDiffCheck prBigDiff).score =
        oversizedDiffScore (prBigDiff.additions + prBigDiff.deletions)
          (jsTrim prBigDiff.body).length := rfl
    have hlen : (jsTrim prBigDiff.body).length = 100 := by decide
    have hadd : prBigDiff.additions + prBigDiff.deletions = 1500 := by decide
    rw [hfs, hlen, hadd]
    simp only [oversizedDiffScore]
    norm_num [min_def]

/-- C7 amended: the score-40 branch fires exactly when `totalChanges > 500`,
the trimmed description has at least 50 characters, and its length is below
`min(totalChanges*0.1, 200)` — with no upper bound 1000 on
`totalChanges`. -/
theorem C7_amended_40_band (pr : PullRequestData) :
    (oversizedDiffCheck pr).score = 40 ↔
      (500 < pr.additions + pr.deletions ∧
        50 ≤ (jsTrim pr.body).length ∧
        ((jsTrim pr.body).length : ℚ) <
          min ((((pr.additions + pr.deletions : ℕ)) : ℚ) * (1/10)) 200) := by
  have hfs : (oversizedDiffCheck pr).score =
      oversizedDiffScore (pr.additions + pr.deletions) (jsTrim pr.body).length := rfl
  rw [hfs]
  simp only [oversizedDiffScore]
  split_ifs with h1 h2 h3 h4 h5 h6
  · exact ⟨fun h => absurd h (by norm_num), fun h => absurd h1 (by omega)⟩
  · exact ⟨fun h => absurd h (by norm_num), fun h => absurd h2.2 (by omega)⟩
  · exact ⟨fun h => absurd h (by norm_num), fun h => absurd h3.2 (by omega)⟩
  · exact ⟨fun h => absurd h (by norm_num), fun h => absurd h4.2 (by omega)⟩
  · refine ⟨fun _ => ⟨h5.1, ?_, h5.2⟩, fun _ => rfl⟩
    by_contra hlt
    exact h4 ⟨h5.1, by omega⟩
  · exact ⟨fun h => absurd h (by norm_num), fun h => absurd h6.2 (by omega)⟩
  · exact ⟨fun h => absurd h (by norm_num), fun h => absurd ⟨h.1, h.2.2⟩ h5⟩

/-- C7 amended witness: the amended characterization applied at the
1500-line fixture. -/
theorem C7_amended_40_band_witness : (oversizedDiffCheck prBigDiff).score = 40 :=
  (C7_amended_40_band prBigDiff).mpr
    ⟨by decide, by decide, by
      have hlen : (jsTrim prBigDiff.body).length = 100 := by decide
      rw [hlen]
      norm_num [prBigDiff, min_def]⟩

/-- C8 counterexample: one duplicated 15-line block gives a duplicate count
of 1 with 15 duplicated lines and score 50, so score 50 is not produced
only for duplicate counts 2 and 3. -/
theorem C8_counterexample :
    duplicateStats dupFiles = (1, 15) ∧ (copyPasteCheck dupFiles).score = 50 := by
  have hb : allCodeBlocks dupFiles =
      [⟨"a.ts", ⟨joinLines (List.replicate 15 "ab cd".data)⟩, 15⟩,
       ⟨"a.ts", ⟨joinLines (List.replicate 15 "ab cd".data)⟩, 15⟩] := by decide
  have hstats : duplicateStats dupFiles = (1, 15) := by
    unfold duplicateStats
    rw [hb]
    simp only [offDiagPairs, List.map_cons, List.map_nil, List.append_nil, List.nil_append,
      List.foldl_cons, List.foldl_nil]
    unfold duplicatePairStep
    rw [if_neg (by norm_num [min_self, max_self]), if_pos ⟨rfl, by decide⟩]
    decide
  refine ⟨hstats, ?_⟩
  have hsc : (copyPasteCheck dupFiles).score =
      copyPasteScore (duplicateStats dupFiles).1 (duplicateStats dupFiles).2 := rfl
  rw [hsc, hstats]
  norm_num [copyPasteScore]

/-- C8 amended: the copy-paste score is the stated band function of the
duplicate statistics, and score 50 appears exactly for duplicate counts 2
and 3 or for one duplicate covering at least 15 lines. -/
theorem C8_copy_paste_bands (files : List PRFile) :
    (copyPasteCheck files).score =
      (if (duplicateStats files).1 = 0 then 0
       else if (duplicateStats files).1 = 1 ∧ (duplicateStats files).2 < 15 then 20
       else if (duplicateStats files).1 ≤ 3 then 50
       else 85) ∧
    ((copyPasteCheck files).score = 50 ↔
      ((duplicateStats files).1 = 2 ∨ (duplicateStats files).1 = 3 ∨
        ((duplicateStats files).1 = 1 ∧ 15 ≤ (duplicateStats files).2))) := by
  have hsc : (copyPasteCheck files).score =
      copyPasteScore (duplicateStats files).1 (duplicateStats files).2 := rfl
  constructor
  · rw [hsc]; rfl
  · rw [hsc]
    unfold copyPasteScore
    split_ifs with h0 h1 h2
    · exact ⟨fun h => absurd h (by norm_num), fun h => by exfalso; omega⟩
    · exact ⟨fun h => absurd h (by norm_num), fun h => by exfalso; omega⟩
    · exact ⟨fun _ => by omega, fun _ => rfl⟩
    · exact ⟨fun h => absurd h (by norm_num), fun h => by exfalso; omega⟩

/-- C9: all three dependency parsers are total — malformed JSON
(`JSON.parse` throwing), non-object JSON values (including `null`, whose
property access throws inside the caught body), empty requirements text and
unrecognized Cargo structure all yield the empty set rather than an
error. -/
theorem C9_dep_parsers_total :
    (∀ parsed : Option JsValue, parsed = none → parseDepsFromPackageJson parsed = []) ∧
    parseDepsFromPackageJson (some JsValue.null) = [] ∧
    parseDepsFromPackageJson (some (JsValue.num 5)) = [] ∧
    parseDepsFromPackageJson (some (JsValue.str "not an object")) = [] ∧
    (∀ v : JsValue, pkgDepsBody v = Except.error () →
      parseDepsFromPackageJson (some v) = []) ∧
    parseDepsFromRequirements "" = [] ∧
    parseDepsFromCargoToml "" = [] ∧
    parseDepsFromCargoToml "dependencies]\nserde = 1" = [] := by
  refine ⟨fun parsed h => ?_, rfl, rfl, rfl, fun v hv => ?_, by decide, by decide, by decide⟩
  · rw [h]; rfl
  · simp [parseDepsFromPackageJson, hv]

/-- C9 witness: the malformed-input and null cases instantiated. -/
theorem C9_dep_parsers_total_witness :
    parseDepsFromPackageJson none = [] ∧ parseDepsFromPackageJson (some JsValue.null) = [] :=
  ⟨C9_dep_parsers_total.1 none rfl, C9_dep_parsers_total.2.2.2.2.1 JsValue.null rfl⟩

/-- C10: a file list with a single added ES-module import line is counted
twice in the total import count (the line matches both the `from` pattern
and the generic import pattern), so one unknown import lands in the 90 band
instead of the single-suspicious 25 band. -/
theorem C10_import_double_count :
    (jsLines importPatch).length = 1 ∧
    (importScan importFiles []).1 = 2 ∧
    (hallucinatedImportCheck importFiles []).score = 90 := by
  have h : importScan importFiles [] = (2, 2) := by decide
  refine ⟨by decide, ?_, ?_⟩
  · rw [h]
  · have hsc : (hallucinatedImportCheck importFiles []).score =
        hallucinatedImportScore (importScan importFiles []).2 (importScan importFiles []).1 :=
      rfl
    rw [hsc, h]
    norm_num [hallucinatedImportScore]
